import Mathlib

/-!
# Verification of the egui/ash integration backend (`src/integration.rs`)

This file gives a shallow embedding of the per-frame GPU resource manager and
draw-command recorder implemented by `Integration<A>` in `src/integration.rs`,
and proves/refutes the frozen claims about it.

Modelling conventions:

* Vulkan object handles (images, image views, descriptor sets, allocations)
  are opaque `Nat` tokens drawn from a fresh-token counter; the maps of the
  texture cache (`AHashMap<TextureId, _>` in the source) are association
  lists with first-match lookup, insert-replaces semantics and full erasure.
* Byte pointers into the persistently mapped vertex/index buffer regions are
  modelled as `Nat` offsets from the region base; the end-of-region pointer
  is the fixed byte capacity, so the source's pointer comparison
  `ptr.add(copy) >= end` becomes `base_offset + copy ≥ capacity`.
* `f32` arithmetic on clip rectangles (scaling, `clamp`, `round`, casts to
  `i32`/`u32`) is modelled over `ℚ` with exact real semantics: `clamp` is
  `max lo (min x hi)`, `round` is round-half-away-from-zero, `as u32` is the
  saturating truncation of Rust, `as i32` keeps the integer value.
* Panics (`unwrap` on a missing managed descriptor set, `panic!("egui paint
  out of memory")`, slice index out of bounds, `todo!()`) are explicit
  `Outcome` values; `eprintln!` diagnostics are explicit `Diag` values.
-/

namespace EguiAsh



/-- `egui::TextureId`: either a toolkit-managed handle or a user slot. -/
inductive TextureId where
  | Managed (id : Nat)
  | User (id : Nat)
deriving DecidableEq, Repr

/-- The Vulkan formats that appear in `src/integration.rs`. -/
inductive Format where
  | R8G8B8A8_SRGB
  | R8G8B8A8_UNORM
  | R32G32_SFLOAT
  | B8G8R8A8_UNORM
deriving DecidableEq, Repr

/-- Association-list model of `AHashMap<TextureId, α>`. -/
abbrev TexMap (α : Type) : Type := List (TextureId × α)

/-- `HashMap::get`: first binding of the key, if any. -/
def mapGet {α : Type} : TexMap α → TextureId → Option α
  | [], _ => none
  | (k, v) :: rest, t => if k = t then some v else mapGet rest t

/-- `HashMap::remove_entry`: drop every binding of the key. -/
def mapErase {α : Type} (l : TexMap α) (t : TextureId) : TexMap α :=
  l.filter (fun p => decide (p.1 ≠ t))

/-- `HashMap::insert`: bind the key, replacing any previous binding. -/
def mapInsert {α : Type} (l : TexMap α) (t : TextureId) (v : α) : TexMap α :=
  (t, v) :: mapErase l t

/-- The pixel payload of an `egui::ImageDelta` (`ImageData::Color` or
`ImageData::Font`); only its extent is inspected by the cache bookkeeping,
the pixel bytes themselves go straight to a staging buffer. -/
structure ImageData where
  width : Nat
  height : Nat
deriving DecidableEq, Repr

/-- `egui::epaint::ImageDelta`: an optional placement offset and a sub-image. -/
structure ImageDelta where
  pos : Option (Nat × Nat)
  image : ImageData
deriving DecidableEq, Repr

/-- The fields of the `vk::ImageCreateInfo` cached in `texture_image_infos`
that vary between textures; every other field of the create-info built in
`update_texture` is a fixed constant. -/
structure ImageCreateInfo where
  width : Nat
  height : Nat
  format : Format
deriving DecidableEq, Repr

/-- The texture-cache portion of the `Integration` state: the five per-handle
maps plus a fresh-token counter standing for new Vulkan object handles. -/
structure TexMaps where
  texture_desc_sets : TexMap Nat
  texture_images : TexMap Nat
  texture_image_infos : TexMap ImageCreateInfo
  texture_allocations : TexMap Nat
  texture_image_views : TexMap Nat
  next : Nat
deriving DecidableEq, Repr

/-- The texture maps of a freshly constructed `Integration` (all empty). -/
def emptyTexMaps : TexMaps :=
  { texture_desc_sets := [], texture_images := [], texture_image_infos := [],
    texture_allocations := [], texture_image_views := [], next := 0 }

/-- `Integration::update_texture`.  A fresh image, allocation and view are
always created and the new create-info is always inserted into
`texture_image_infos` (source line 893, before the `delta.pos` branch).  If
the delta carries a placement offset: when a record exists the new image is
blitted into it and then destroyed (no map changes beyond the info insert);
when no record exists the function returns early.  Without an offset the
fresh image/allocation/view and a newly allocated descriptor set are
registered under the handle. -/
def update_texture (texture_id : TextureId) (delta : ImageDelta) (s : TexMaps) : TexMaps :=
  let texture_image := s.next
  let texture_allocation := s.next + 1
  let texture_image_view := s.next + 2
  let info : ImageCreateInfo :=
    { width := delta.image.width, height := delta.image.height, format := .R8G8B8A8_SRGB }
  match delta.pos with
  | some _pos =>
    match mapGet s.texture_images texture_id with
    | some _existing =>
      -- blit the temporary image into the existing one, then destroy the
      -- temporary image, view and allocation: no per-handle map changes
      { s with texture_image_infos := mapInsert s.texture_image_infos texture_id info,
               next := s.next + 3 }
    | none =>
      -- early return: the temporary objects never reach the maps
      { s with texture_image_infos := mapInsert s.texture_image_infos texture_id info,
               next := s.next + 3 }
  | none =>
    { s with texture_image_infos := mapInsert s.texture_image_infos texture_id info,
             texture_images := mapInsert s.texture_images texture_id texture_image,
             texture_allocations := mapInsert s.texture_allocations texture_id texture_allocation,
             texture_image_views := mapInsert s.texture_image_views texture_id texture_image_view,
             texture_desc_sets := mapInsert s.texture_desc_sets texture_id (s.next + 3),
             next := s.next + 4 }

/-- The per-handle effect of the `textures_delta.free` loop at the end of
`Integration::paint`: the handle is removed from all five maps (the image,
view and allocation are destroyed; the descriptor set is dropped with the
pool). -/
def applyFree (texture_id : TextureId) (s : TexMaps) : TexMaps :=
  { s with texture_desc_sets := mapErase s.texture_desc_sets texture_id,
           texture_image_infos := mapErase s.texture_image_infos texture_id,
           texture_images := mapErase s.texture_images texture_id,
           texture_image_views := mapErase s.texture_image_views texture_id,
           texture_allocations := mapErase s.texture_allocations texture_id }

/-- The texture-cache effect of `Integration::destroy`: `texture_images`,
`texture_image_views` and `texture_allocations` are drained, but
`texture_desc_sets` (and `texture_image_infos`) are left untouched. -/
def destroy (s : TexMaps) : TexMaps :=
  { s with texture_images := [], texture_image_views := [], texture_allocations := [] }

/-- `egui::epaint::Vertex` (2 `f32` position + 2 `f32` uv + 4 `u8` color);
only its byte size and list length are inspected by the recorder. -/
structure Vertex where
  pos : ℚ × ℚ
  uv : ℚ × ℚ
  color : Nat × Nat × Nat × Nat
deriving DecidableEq, Repr

/-- `size_of_val(&v_slice[0])` for `egui::epaint::Vertex`:
`4 * size_of::<f32>() + 4 * size_of::<u8>() = 20` bytes. -/
def vertex_byte_size : Nat := 4 * 4 + 4 * 1

/-- `size_of_val(&i_slice[0])` for a `u32` index: 4 bytes. -/
def index_byte_size : Nat := 4

/-- `egui::epaint::Mesh`: a texture handle plus vertex and index lists. -/
structure Mesh where
  texture_id : TextureId
  vertices : List Vertex
  indices : List Nat
deriving DecidableEq, Repr

/-- `egui::Rect` over exact rationals. -/
structure Rect where
  min_x : ℚ
  min_y : ℚ
  max_x : ℚ
  max_y : ℚ
deriving DecidableEq, Repr

/-- `egui::epaint::Primitive`: a mesh, or a paint callback (which the source
handles with `todo!()`, i.e. a panic). -/
inductive Primitive where
  | Mesh (mesh : Mesh)
  | Callback
deriving DecidableEq, Repr

/-- `egui::ClippedPrimitive`. -/
structure ClippedPrimitive where
  clip_rect : Rect
  primitive : Primitive
deriving DecidableEq, Repr

/-- `Integration::vertex_buffer_size`: fixed 4 MiB vertex capacity. -/
def vertex_buffer_size : Nat := 1024 * 1024 * 4

/-- `Integration::index_buffer_size`: fixed 2 MiB index capacity. -/
def index_buffer_size : Nat := 1024 * 1024 * 2

/-- Rust `f32::clamp` (for `lo ≤ hi`): `max lo (min x hi)`. -/
def clampQ (x lo hi : ℚ) : ℚ := max lo (min x hi)

/-- Computable floor of a rational (`Rat.floor`): `⌊x⌋ = x.num / x.den`. -/
def ratFloor (x : ℚ) : ℤ := x.num / (x.den : ℤ)

/-- Rust `f32::round`: round half away from zero. -/
def roundRust (x : ℚ) : ℤ := if 0 ≤ x then ratFloor (x + 1 / 2) else -(ratFloor (-x + 1 / 2))

/-- Rust `as u32` on a (finite) float: saturating truncation towards zero;
negative values map to `0`.  For the nonnegative values produced by the
scissor computation this is `⌊x⌋`. -/
def qToU32 (x : ℚ) : Nat := (ratFloor x).toNat

/-- A `vk::Rect2D` scissor: integer offset plus unsigned extent. -/
structure Scissor where
  ox : ℤ
  oy : ℤ
  ew : Nat
  eh : Nat
deriving DecidableEq, Repr

/-- The scissor rectangle computed in `Integration::paint` (lines 712-746):
the clip rectangle is scaled by `scale_factor`, the min corner is clamped to
`[0, physical_size]`, the max corner is clamped to `[min, physical_size]`,
the offset is the rounded min corner and the extent is
`(round(max) - min) as u32`. -/
def scissorOf (scale : ℚ) (physical_width physical_height : Nat) (clip : Rect) : Scissor :=
  let min_x := clampQ (clip.min_x * scale) 0 physical_width
  let min_y := clampQ (clip.min_y * scale) 0 physical_height
  let max_x := clampQ (clip.max_x * scale) min_x physical_width
  let max_y := clampQ (clip.max_y * scale) min_y physical_height
  { ox := roundRust min_x, oy := roundRust min_y,
    ew := qToU32 ((roundRust max_x : ℚ) - min_x),
    eh := qToU32 ((roundRust max_y : ℚ) - min_y) }

/-- The commands recorded into the caller's command buffer by `paint`. -/
inductive Cmd where
  | beginRenderPass (framebuffer_index width height : Nat)
  | bindPipeline
  | bindVertexBuffer (index : Nat)
  | bindIndexBuffer (index : Nat)
  | setViewport (width height : Nat)
  | pushConstants (points : ℚ)
  | bindDescriptorSet (descriptor_set : Nat)
  | setScissor (rect : Scissor)
  | drawIndexed (index_count instance_count first_index vertex_offset first_instance : Nat)
  | endRenderPass
deriving DecidableEq, Repr

/-- The `eprintln!` diagnostics of the source. -/
inductive Diag where
  | userTextureUnregistered (id : Nat)
  | cannotUnregisterManaged
deriving DecidableEq, Repr

/-- How a call returns: normally, or by one of the source's panics. -/
inductive Outcome where
  | ok
  | panicOutOfMemory
  | panicUnwrapTexture
  | panicIndexOutOfBounds
  | panicTodo
deriving DecidableEq, Repr

/-- The observable result of recording one frame: the recorded commands, the
emitted diagnostics, the final vertex/index write cursors (byte offsets from
the mapped region base) and the outcome. -/
structure Frame where
  cmds : List Cmd
  logs : List Diag
  vptr : Nat
  iptr : Nat
  outcome : Outcome
deriving DecidableEq, Repr

/-- The `for egui::ClippedPrimitive { .. } in clipped_meshes` loop of
`Integration::paint` (lines 644-759).  Per primitive: a `Callback` panics
(`todo!()`); empty meshes are skipped; a `User` texture id indexes
`user_textures` (out of bounds panics, an unregistered `None` slot logs and
skips); a managed id is looked up in `texture_desc_sets` (`unwrap` panics if
absent); the cumulative write cursors are bounds-checked with a non-strict
comparison against the fixed capacities (`panic!("egui paint out of
memory")`); finally the scissor and indexed draw are recorded and the
vertex/index bases advance by the mesh's list lengths. -/
def renderMeshes (texture_desc_sets : TexMap Nat) (user_textures : List (Option Nat))
    (scale : ℚ) (physical_width physical_height : Nat) :
    List ClippedPrimitive → Nat → Nat → Nat → Nat → Frame
  | [], vptr, iptr, _, _ => ⟨[], [], vptr, iptr, .ok⟩
  | cp :: rest, vptr, iptr, vertex_base, index_base =>
    match cp.primitive with
    | .Callback => ⟨[], [], vptr, iptr, .panicTodo⟩
    | .Mesh mesh =>
      if mesh.vertices.isEmpty || mesh.indices.isEmpty then
        renderMeshes texture_desc_sets user_textures scale physical_width physical_height
          rest vptr iptr vertex_base index_base
      else
        match mesh.texture_id with
        | .User id =>
          match user_textures[id]? with
          | none => ⟨[], [], vptr, iptr, .panicIndexOutOfBounds⟩
          | some none =>
            let f := renderMeshes texture_desc_sets user_textures scale physical_width
              physical_height rest vptr iptr vertex_base index_base
            { f with logs := .userTextureUnregistered id :: f.logs }
          | some (some descriptor_set) =>
            let v_copy_size := mesh.vertices.length * vertex_byte_size
            let i_copy_size := mesh.indices.length * index_byte_size
            let vertex_buffer_ptr_next := vptr + v_copy_size
            let index_buffer_ptr_next := iptr + i_copy_size
            if vertex_buffer_size ≤ vertex_buffer_ptr_next
                ∨ index_buffer_size ≤ index_buffer_ptr_next then
              ⟨[.bindDescriptorSet descriptor_set], [], vptr, iptr, .panicOutOfMemory⟩
            else
              let f := renderMeshes texture_desc_sets user_textures scale physical_width
                physical_height rest vertex_buffer_ptr_next index_buffer_ptr_next
                (vertex_base + mesh.vertices.length) (index_base + mesh.indices.length)
              { f with cmds := .bindDescriptorSet descriptor_set ::
                  .setScissor (scissorOf scale physical_width physical_height cp.clip_rect) ::
                  .drawIndexed mesh.indices.length 1 index_base vertex_base 0 :: f.cmds }
        | .Managed _ =>
          match mapGet texture_desc_sets mesh.texture_id with
          | none => ⟨[], [], vptr, iptr, .panicUnwrapTexture⟩
          | some descriptor_set =>
            let v_copy_size := mesh.vertices.length * vertex_byte_size
            let i_copy_size := mesh.indices.length * index_byte_size
            let vertex_buffer_ptr_next := vptr + v_copy_size
            let index_buffer_ptr_next := iptr + i_copy_size
            if vertex_buffer_size ≤ vertex_buffer_ptr_next
                ∨ index_buffer_size ≤ index_buffer_ptr_next then
              ⟨[.bindDescriptorSet descriptor_set], [], vptr, iptr, .panicOutOfMemory⟩
            else
              let f := renderMeshes texture_desc_sets user_textures scale physical_width
                physical_height rest vertex_buffer_ptr_next index_buffer_ptr_next
                (vertex_base + mesh.vertices.length) (index_base + mesh.indices.length)
              { f with cmds := .bindDescriptorSet descriptor_set ::
                  .setScissor (scissorOf scale physical_width physical_height cp.clip_rect) ::
                  .drawIndexed mesh.indices.length 1 index_base vertex_base 0 :: f.cmds }

/-- `egui::TexturesDelta`: creations/patches to apply before recording and
frees to apply after the frame's draws are recorded. -/
structure TexturesDelta where
  set : List (TextureId × ImageDelta)
  free : List TextureId
deriving DecidableEq, Repr

/-- The texture-cache state after the `textures_delta.set` loop at the top of
`Integration::paint`. -/
def textureStateAfterSets (s : TexMaps) (textures_delta : TexturesDelta) : TexMaps :=
  textures_delta.set.foldl (fun acc pr => update_texture pr.1 pr.2 acc) s

/-- The commands `paint` records before the mesh loop: begin the render pass
on the slot's framebuffer, bind the pipeline and the slot's vertex/index
buffers, set the full-surface viewport and push the logical screen size
(physical size divided by the scale factor) as two float constants. -/
def framePrefix (swapchain_image_index physical_width physical_height : Nat)
    (scale : ℚ) : List Cmd :=
  [.beginRenderPass swapchain_image_index physical_width physical_height,
   .bindPipeline,
   .bindVertexBuffer swapchain_image_index,
   .bindIndexBuffer swapchain_image_index,
   .setViewport physical_width physical_height,
   .pushConstants ((physical_width : ℚ) / scale),
   .pushConstants ((physical_height : ℚ) / scale)]

/-- The result of `Integration::paint`: the new texture-cache state and the
recorded frame. -/
structure PaintResult where
  state : TexMaps
  frame : Frame
deriving DecidableEq, Repr

/-- `Integration::paint`: apply the "set" deltas, record the frame prefix and
the mesh loop, end the render pass, and - only if no panic unwound the call -
apply the "free" deltas at the end of the frame. -/
def paint (s : TexMaps) (user_textures : List (Option Nat)) (scale : ℚ)
    (physical_width physical_height swapchain_image_index : Nat)
    (clipped_meshes : List ClippedPrimitive) (textures_delta : TexturesDelta) :
    PaintResult :=
  let s1 := textureStateAfterSets s textures_delta
  let f := renderMeshes s1.texture_desc_sets user_textures scale physical_width
    physical_height clipped_meshes 0 0 0 0
  let pre := framePrefix swapchain_image_index physical_width physical_height scale
  match f.outcome with
  | .ok =>
    ⟨textures_delta.free.foldl (fun acc texture_id => applyFree texture_id acc) s1,
     { f with cmds := pre ++ f.cmds ++ [.endRenderPass] }⟩
  | _ =>
    ⟨s1, { f with cmds := pre ++ f.cmds }⟩

/-- The Vulkan object lifecycle events issued by `Integration::update_swapchain`. -/
inductive ResizeEvent where
  | destroyRenderPass
  | destroyPipeline
  | destroyImageView (i : Nat)
  | destroyFramebuffer (i : Nat)
  | createRenderPass (format : Format)
  | createPipeline
  | createImageView (i : Nat) (format : Format)
  | createFramebuffer (i : Nat) (width height : Nat)
deriving DecidableEq, Repr

/-- The ordered event sequence of `Integration::update_swapchain`
(lines 1196-1424): destroy the render pass, the pipeline, each old
per-image color view, then each old framebuffer; then recreate the render
pass for the new surface format, the pipeline against it, the per-image
views for the new swapchain images, and the framebuffers at the new size. -/
def update_swapchain_events (old_image_count new_image_count
    physical_width physical_height : Nat) (surface_format : Format) :
    List ResizeEvent :=
  [.destroyRenderPass, .destroyPipeline]
    ++ (List.range old_image_count).map .destroyImageView
    ++ (List.range old_image_count).map .destroyFramebuffer
    ++ [.createRenderPass surface_format, .createPipeline]
    ++ (List.range new_image_count).map (fun i => .createImageView i surface_format)
    ++ (List.range new_image_count).map
        (fun i => .createFramebuffer i physical_width physical_height)

/-- `vk::PrimitiveTopology`. -/
inductive PrimitiveTopology where
  | TRIANGLE_LIST
deriving DecidableEq, Repr

/-- `vk::PolygonMode`. -/
inductive PolygonMode where
  | FILL
deriving DecidableEq, Repr

/-- `vk::CullModeFlags`. -/
inductive CullMode where
  | NONE
deriving DecidableEq, Repr

/-- `vk::FrontFace`. -/
inductive FrontFace where
  | COUNTER_CLOCKWISE
deriving DecidableEq, Repr

/-- `vk::CompareOp`. -/
inductive CompareOp where
  | ALWAYS
  | LESS_OR_EQUAL
deriving DecidableEq, Repr

/-- `vk::StencilOp`. -/
inductive StencilOp where
  | KEEP
deriving DecidableEq, Repr

/-- `vk::BlendFactor`. -/
inductive BlendFactor where
  | ONE
  | ONE_MINUS_SRC_ALPHA
deriving DecidableEq, Repr

/-- `vk::DynamicState`. -/
inductive DynamicState where
  | VIEWPORT
  | SCISSOR
deriving DecidableEq, Repr

/-- `vk::VertexInputBindingDescription` (`input_rate` is `VERTEX` in both
pipeline builds, so only binding and stride are recorded). -/
structure VertexBinding where
  binding : Nat
  stride : Nat
deriving DecidableEq, Repr

/-- `vk::VertexInputAttributeDescription`. -/
structure VertexAttribute where
  binding : Nat
  location : Nat
  offset : Nat
  format : Format
deriving DecidableEq, Repr

/-- `vk::PipelineRasterizationStateCreateInfo` as set by the source. -/
structure RasterizationState where
  depth_clamp_enable : Bool
  rasterizer_discard_enable : Bool
  polygon_mode : PolygonMode
  cull_mode : CullMode
  front_face : FrontFace
  depth_bias_enable : Bool
  line_width : ℚ
deriving DecidableEq, Repr

/-- `vk::StencilOpState` as set by the source. -/
structure StencilOpState where
  fail_op : StencilOp
  pass_op : StencilOp
  compare_op : CompareOp
deriving DecidableEq, Repr

/-- `vk::PipelineDepthStencilStateCreateInfo` as set by the source. -/
structure DepthStencilState where
  depth_test_enable : Bool
  depth_write_enable : Bool
  depth_compare_op : CompareOp
  depth_bounds_test_enable : Bool
  stencil_test_enable : Bool
  front : StencilOpState
  back : StencilOpState
deriving DecidableEq, Repr

/-- `vk::PipelineColorBlendAttachmentState` as set by the source
(`color_write_mask` is R|G|B|A in both builds, recorded as four flags). -/
structure BlendAttachment where
  write_r : Bool
  write_g : Bool
  write_b : Bool
  write_a : Bool
  blend_enable : Bool
  src_color_blend_factor : BlendFactor
  dst_color_blend_factor : BlendFactor
deriving DecidableEq, Repr

/-- The fixed-function portion of the graphics pipeline state that the source
sets explicitly (the render pass it is bound to is kept outside, as the
claim compares the states "differing only in the render target"). -/
structure FixedFunctionState where
  bindings : List VertexBinding
  attributes : List VertexAttribute
  topology : PrimitiveTopology
  viewport_count : Nat
  scissor_count : Nat
  rasterization : RasterizationState
  depth_stencil : DepthStencilState
  blend : List BlendAttachment
  dynamic_states : List DynamicState
  rasterization_samples : Nat
deriving DecidableEq, Repr

/-- The `vk::StencilOpState` used by both pipeline builds. -/
def stencil_op : StencilOpState :=
  { fail_op := .KEEP, pass_op := .KEEP, compare_op := .ALWAYS }

/-- The fixed-function pipeline state built in `Integration::new`
(lines 171-305): stride `4 * size_of::<f32>() + 4 * size_of::<u8>()`,
depth test and write disabled with compare op `ALWAYS`. -/
def pipelineFixedFunctionNew : FixedFunctionState :=
  { bindings := [{ binding := 0, stride := 4 * 4 + 4 * 1 }],
    attributes :=
      [{ binding := 0, location := 0, offset := 0, format := .R32G32_SFLOAT },
       { binding := 0, location := 1, offset := 8, format := .R32G32_SFLOAT },
       { binding := 0, location := 2, offset := 16, format := .R8G8B8A8_UNORM }],
    topology := .TRIANGLE_LIST,
    viewport_count := 1,
    scissor_count := 1,
    rasterization :=
      { depth_clamp_enable := false, rasterizer_discard_enable := false,
        polygon_mode := .FILL, cull_mode := .NONE, front_face := .COUNTER_CLOCKWISE,
        depth_bias_enable := false, line_width := 1 },
    depth_stencil :=
      { depth_test_enable := false, depth_write_enable := false,
        depth_compare_op := .ALWAYS, depth_bounds_test_enable := false,
        stencil_test_enable := false, front := stencil_op, back := stencil_op },
    blend :=
      [{ write_r := true, write_g := true, write_b := true, write_a := true,
         blend_enable := true, src_color_blend_factor := .ONE,
         dst_color_blend_factor := .ONE_MINUS_SRC_ALPHA }],
    dynamic_states := [.VIEWPORT, .SCISSOR],
    rasterization_samples := 1 }

/-- The fixed-function pipeline state rebuilt in
`Integration::update_swapchain` (lines 1242-1381): stride
`5 * size_of::<f32>()`, depth test and write enabled with compare op
`LESS_OR_EQUAL`. -/
def pipelineFixedFunctionRebuild : FixedFunctionState :=
  { bindings := [{ binding := 0, stride := 5 * 4 }],
    attributes :=
      [{ binding := 0, location := 0, offset := 0, format := .R32G32_SFLOAT },
       { binding := 0, location := 1, offset := 8, format := .R32G32_SFLOAT },
       { binding := 0, location := 2, offset := 16, format := .R8G8B8A8_UNORM }],
    topology := .TRIANGLE_LIST,
    viewport_count := 1,
    scissor_count := 1,
    rasterization :=
      { depth_clamp_enable := false, rasterizer_discard_enable := false,
        polygon_mode := .FILL, cull_mode := .NONE, front_face := .COUNTER_CLOCKWISE,
        depth_bias_enable := false, line_width := 1 },
    depth_stencil :=
      { depth_test_enable := true, depth_write_enable := true,
        depth_compare_op := .LESS_OR_EQUAL, depth_bounds_test_enable := false,
        stencil_test_enable := false, front := stencil_op, back := stencil_op },
    blend :=
      [{ write_r := true, write_g := true, write_b := true, write_a := true,
         blend_enable := true, src_color_blend_factor := .ONE,
         dst_color_blend_factor := .ONE_MINUS_SRC_ALPHA }],
    dynamic_states := [.VIEWPORT, .SCISSOR],
    rasterization_samples := 1 }

/-- `Integration::unregister_user_texture` (lines 1494-1508): a `Managed`
handle is reported with `eprintln!` and nothing changes; a `User` id indexes
`user_textures` (out of bounds panics); an occupied slot has its descriptor
set freed and is marked `None`; an already-free slot falls through silently.
The result carries the new slot table, the emitted diagnostics, the
descriptor sets freed from the pool and the outcome. -/
def unregister_user_texture (user_textures : List (Option Nat))
    (texture_id : TextureId) :
    List (Option Nat) × List Diag × List Nat × Outcome :=
  match texture_id with
  | .User id =>
    match user_textures[id]? with
    | none => (user_textures, [], [], .panicIndexOutOfBounds)
    | some none => (user_textures, [], [], .ok)
    | some (some descriptor_set) =>
      (user_textures.set id none, [], [descriptor_set], .ok)
  | .Managed _ => (user_textures, [.cannotUnregisterManaged], [], .ok)

/-- The descriptor set a mesh's texture handle resolves to, if any: a `User`
id looks up its registry slot, a managed handle looks up the texture cache. -/
def descOf (texture_desc_sets : TexMap Nat) (user_textures : List (Option Nat))
    (mesh : Mesh) : Option Nat :=
  match mesh.texture_id with
  | .User id =>
    match user_textures[id]? with
    | some o => o
    | none => none
  | .Managed _ => mapGet texture_desc_sets mesh.texture_id

/-- A primitive that the mesh loop actually draws: its clip rectangle, its
mesh, and the descriptor set its texture resolved to. -/
structure DrawnPrim where
  clip_rect : Rect
  mesh : Mesh
  descriptor_set : Nat
deriving DecidableEq, Repr

/-- The primitives the mesh loop draws, in input order: meshes that are
non-empty and whose texture handle resolves to a descriptor set. -/
def drawnOf (texture_desc_sets : TexMap Nat) (user_textures : List (Option Nat)) :
    List ClippedPrimitive → List DrawnPrim :=
  List.filterMap fun cp =>
    match cp.primitive with
    | .Callback => none
    | .Mesh mesh =>
      if mesh.vertices.isEmpty || mesh.indices.isEmpty then none
      else
        match descOf texture_desc_sets user_textures mesh with
        | some descriptor_set => some ⟨cp.clip_rect, mesh, descriptor_set⟩
        | none => none

/-- The diagnostics the mesh loop emits, in input order: one per non-empty
mesh whose `User` slot exists but is unregistered. -/
def skippedLogsOf (user_textures : List (Option Nat)) :
    List ClippedPrimitive → List Diag :=
  List.filterMap fun cp =>
    match cp.primitive with
    | .Callback => none
    | .Mesh mesh =>
      if mesh.vertices.isEmpty || mesh.indices.isEmpty then none
      else
        match mesh.texture_id with
        | .User id =>
          match user_textures[id]? with
          | some none => some (.userTextureUnregistered id)
          | _ => none
        | .Managed _ => none

/-- No primitive of the list can make the mesh loop panic while resolving:
no callbacks, every non-empty managed mesh has a cached descriptor set, and
every non-empty `User` mesh's id is within the registry bounds (the slot may
still be unregistered - that is a recoverable skip). -/
def noFatalFrame (texture_desc_sets : TexMap Nat) (user_textures : List (Option Nat))
    (ps : List ClippedPrimitive) : Bool :=
  ps.all fun cp =>
    match cp.primitive with
    | .Callback => false
    | .Mesh mesh =>
      mesh.vertices.isEmpty || mesh.indices.isEmpty ||
        (match mesh.texture_id with
         | .User id => decide (id < user_textures.length)
         | .Managed _ => (mapGet texture_desc_sets mesh.texture_id).isSome)

/-- Every non-empty mesh of the list resolves to a live descriptor set (and
there are no callbacks). -/
def allResolvedFrame (texture_desc_sets : TexMap Nat) (user_textures : List (Option Nat))
    (ps : List ClippedPrimitive) : Bool :=
  ps.all fun cp =>
    match cp.primitive with
    | .Callback => false
    | .Mesh mesh =>
      mesh.vertices.isEmpty || mesh.indices.isEmpty ||
        (descOf texture_desc_sets user_textures mesh).isSome

/-- Total vertex bytes the drawn primitives copy into the vertex region. -/
def totalVertexBytes (l : List DrawnPrim) : Nat :=
  (l.map fun dp => dp.mesh.vertices.length * vertex_byte_size).sum

/-- Total index bytes the drawn primitives copy into the index region. -/
def totalIndexBytes (l : List DrawnPrim) : Nat :=
  (l.map fun dp => dp.mesh.indices.length * index_byte_size).sum

/-- The command stream the mesh loop is expected to record for a list of
drawn primitives, starting from the given vertex/index bases: per primitive
a descriptor-set bind, a scissor, and one indexed draw whose first index and
vertex offset are the cumulative index/vertex counts of the previously
drawn primitives. -/
def expectedCmds (scale : ℚ) (physical_width physical_height : Nat) :
    List DrawnPrim → Nat → Nat → List Cmd
  | [], _, _ => []
  | dp :: rest, vertex_base, index_base =>
    .bindDescriptorSet dp.descriptor_set ::
    .setScissor (scissorOf scale physical_width physical_height dp.clip_rect) ::
    .drawIndexed dp.mesh.indices.length 1 index_base vertex_base 0 ::
    expectedCmds scale physical_width physical_height rest
      (vertex_base + dp.mesh.vertices.length) (index_base + dp.mesh.indices.length)

/-- The indexed draws expected for a list of drawn primitives:
`(index_count, first_index, vertex_offset)` per primitive, with the offsets
accumulating the counts of the previously drawn primitives. -/
def expectedDraws : List DrawnPrim → Nat → Nat → List (Nat × Nat × Nat)
  | [], _, _ => []
  | dp :: rest, vertex_base, index_base =>
    (dp.mesh.indices.length, index_base, vertex_base) ::
    expectedDraws rest (vertex_base + dp.mesh.vertices.length)
      (index_base + dp.mesh.indices.length)

/-- The indexed draws among a recorded command stream, as
`(index_count, first_index, vertex_offset)` triples. -/
def drawsOf (cmds : List Cmd) : List (Nat × Nat × Nat) :=
  cmds.filterMap fun c =>
    match c with
    | .drawIndexed n _ fi vo _ => some (n, fi, vo)
    | _ => none

/-- The non-empty meshes of a primitive list, in input order. -/
def nonEmptyMeshes (ps : List ClippedPrimitive) : List Mesh :=
  ps.filterMap fun cp =>
    match cp.primitive with
    | .Callback => none
    | .Mesh mesh =>
      if mesh.vertices.isEmpty || mesh.indices.isEmpty then none else some mesh

/-- The four per-handle maps `texture_desc_sets`, `texture_images`,
`texture_image_views` and `texture_allocations` bind exactly the same set of
handles, i.e. every live managed record has its descriptor set, image, view
and allocation together. -/
def recordComplete (s : TexMaps) : Prop :=
  ∀ u : TextureId,
    (mapGet s.texture_desc_sets u).isSome = (mapGet s.texture_images u).isSome ∧
    (mapGet s.texture_desc_sets u).isSome = (mapGet s.texture_image_views u).isSome ∧
    (mapGet s.texture_desc_sets u).isSome = (mapGet s.texture_allocations u).isSome

theorem mapErase_cons {α : Type} (p : TextureId × α) (rest : TexMap α) (t : TextureId) :
    mapErase (p :: rest) t =
      if p.1 = t then mapErase rest t else p :: mapErase rest t := by
  by_cases hp : p.1 = t <;> simp [mapErase, List.filter_cons, hp]

theorem mapGet_erase_self {α : Type} (l : TexMap α) (t : TextureId) :
    mapGet (mapErase l t) t = none := by
  induction l with
  | nil => rfl
  | cons p rest ih =>
    rw [mapErase_cons]
    by_cases hp : p.1 = t
    · rw [if_pos hp]; exact ih
    · rw [if_neg hp]; simpa [mapGet, hp] using ih

theorem mapGet_erase_ne {α : Type} (l : TexMap α) {t u : TextureId} (h : u ≠ t) :
    mapGet (mapErase l t) u = mapGet l u := by
  induction l with
  | nil => rfl
  | cons p rest ih =>
    rw [mapErase_cons]
    by_cases hp : p.1 = t
    · have hpu : p.1 ≠ u := by rw [hp]; exact fun hh => h hh.symm
      rw [if_pos hp]
      simp [mapGet, hpu, ih]
    · rw [if_neg hp]
      simp [mapGet, ih]

theorem mapErase_of_get_none {α : Type} (l : TexMap α) (t : TextureId)
    (h : mapGet l t = none) : mapErase l t = l := by
  induction l with
  | nil => rfl
  | cons p rest ih =>
    by_cases hp : p.1 = t
    · simp [mapGet, hp] at h
    · simp [mapGet, hp] at h
      rw [mapErase_cons, if_neg hp, ih h]

theorem mapGet_insert_self {α : Type} (l : TexMap α) (t : TextureId) (v : α) :
    mapGet (mapInsert l t v) t = some v := by
  simp [mapInsert, mapGet]

theorem mapGet_insert_ne {α : Type} (l : TexMap α) {t u : TextureId} (v : α)
    (h : u ≠ t) : mapGet (mapInsert l t v) u = mapGet l u := by
  have ht : t ≠ u := fun hh => h hh.symm
  simp [mapInsert, mapGet, ht, mapGet_erase_ne l h]

theorem renderMeshes_spec (texture_desc_sets : TexMap Nat)
    (user_textures : List (Option Nat)) (scale : ℚ)
    (physical_width physical_height : Nat) :
    ∀ (ps : List ClippedPrimitive) (vptr iptr vertex_base index_base : Nat),
      noFatalFrame texture_desc_sets user_textures ps = true →
      vptr + totalVertexBytes (drawnOf texture_desc_sets user_textures ps)
        < vertex_buffer_size →
      iptr + totalIndexBytes (drawnOf texture_desc_sets user_textures ps)
        < index_buffer_size →
      renderMeshes texture_desc_sets user_textures scale physical_width physical_height
          ps vptr iptr vertex_base index_base =
        ⟨expectedCmds scale physical_width physical_height
            (drawnOf texture_desc_sets user_textures ps) vertex_base index_base,
         skippedLogsOf user_textures ps,
         vptr + totalVertexBytes (drawnOf texture_desc_sets user_textures ps),
         iptr + totalIndexBytes (drawnOf texture_desc_sets user_textures ps), .ok⟩ := by
  intro ps
  induction ps with
  | nil =>
    intro vptr iptr vertex_base index_base hnf hv hi
    simp [renderMeshes, drawnOf, skippedLogsOf, totalVertexBytes, totalIndexBytes,
      expectedCmds]
  | cons cp rest ih =>
    intro vptr iptr vertex_base index_base hnf hv hi
    obtain ⟨clip, prim⟩ := cp
    simp only [noFatalFrame, List.all_cons, Bool.and_eq_true] at hnf
    cases prim with
    | Callback => simp at hnf
    | Mesh mesh =>
      by_cases hE : (mesh.vertices.isEmpty || mesh.indices.isEmpty) = true
      · have hE2 : mesh.vertices = [] ∨ mesh.indices = [] := by simpa using hE
        have hdrawn : drawnOf texture_desc_sets user_textures
            (⟨clip, .Mesh mesh⟩ :: rest) = drawnOf texture_desc_sets user_textures rest := by
          simp [drawnOf, List.filterMap_cons, hE2]
        have hskip : skippedLogsOf user_textures (⟨clip, .Mesh mesh⟩ :: rest)
            = skippedLogsOf user_textures rest := by
          simp [skippedLogsOf, List.filterMap_cons, hE2]
        rw [hdrawn] at hv
        rw [hdrawn] at hi
        rw [hdrawn, hskip]
        simpa [renderMeshes, hE] using ih vptr iptr vertex_base index_base hnf.2 hv hi
      · have hE2 : ¬ (mesh.vertices = [] ∨ mesh.indices = []) := by simpa using hE
        cases htex : mesh.texture_id with
        | User id =>
          have hlt : id < user_textures.length := by
            simp only [htex, hE] at hnf
            simpa using hnf.1
          have hsome : user_textures[id]? = some user_textures[id] :=
            List.getElem?_eq_getElem hlt
          cases hslot : user_textures[id] with
          | none =>
            have hdrawn : drawnOf texture_desc_sets user_textures
                (⟨clip, .Mesh mesh⟩ :: rest)
                = drawnOf texture_desc_sets user_textures rest := by
              simp [drawnOf, List.filterMap_cons, hE2, descOf, htex, hsome, hslot]
            have hskip : skippedLogsOf user_textures (⟨clip, .Mesh mesh⟩ :: rest)
                = .userTextureUnregistered id :: skippedLogsOf user_textures rest := by
              simp [skippedLogsOf, List.filterMap_cons, hE2, htex, hsome, hslot]
            rw [hdrawn] at hv hi
            rw [hdrawn, hskip]
            simp only [renderMeshes, htex, hE, hsome, hslot]
            rw [ih vptr iptr vertex_base index_base hnf.2 hv hi]
            simp
          | some descriptor_set =>
            have hdrawn : drawnOf texture_desc_sets user_textures
                (⟨clip, .Mesh mesh⟩ :: rest)
                = ⟨clip, mesh, descriptor_set⟩ :: drawnOf texture_desc_sets user_textures rest := by
              simp [drawnOf, List.filterMap_cons, hE2, descOf, htex, hsome, hslot]
            have hskip : skippedLogsOf user_textures (⟨clip, .Mesh mesh⟩ :: rest)
                = skippedLogsOf user_textures rest := by
              simp [skippedLogsOf, List.filterMap_cons, hE2, htex, hsome, hslot]
            rw [hdrawn] at hv hi
            simp only [totalVertexBytes, totalIndexBytes, List.map_cons, List.sum_cons] at hv hi
            have hvfit : vptr + mesh.vertices.length * vertex_byte_size
                + totalVertexBytes (drawnOf texture_desc_sets user_textures rest)
                < vertex_buffer_size := by
              simpa [totalVertexBytes, Nat.add_assoc] using hv
            have hifit : iptr + mesh.indices.length * index_byte_size
                + totalIndexBytes (drawnOf texture_desc_sets user_textures rest)
                < index_buffer_size := by
              simpa [totalIndexBytes, Nat.add_assoc] using hi
            have hnov : ¬ (vertex_buffer_size ≤ vptr + mesh.vertices.length * vertex_byte_size
                ∨ index_buffer_size ≤ iptr + mesh.indices.length * index_byte_size) := by
              push_neg
              constructor
              · omega
              · omega
            rw [hdrawn, hskip]
            simp only [renderMeshes, htex, hE, hsome, hslot, if_neg hnov]
            rw [ih (vptr + mesh.vertices.length * vertex_byte_size)
              (iptr + mesh.indices.length * index_byte_size)
              (vertex_base + mesh.vertices.length) (index_base + mesh.indices.length)
              hnf.2 (by omega) (by omega)]
            simp [expectedCmds, totalVertexBytes, totalIndexBytes]
            constructor
            · omega
            · omega
        | Managed mid =>
          have hres : (mapGet texture_desc_sets mesh.texture_id).isSome = true := by
            simp only [htex, hE] at hnf
            simpa [htex] using hnf.1
          obtain ⟨descriptor_set, hds⟩ := Option.isSome_iff_exists.mp hres
          rw [htex] at hds
          have hdrawn : drawnOf texture_desc_sets user_textures
              (⟨clip, .Mesh mesh⟩ :: rest)
              = ⟨clip, mesh, descriptor_set⟩ :: drawnOf texture_desc_sets user_textures rest := by
            simp [drawnOf, List.filterMap_cons, hE2, descOf, htex, hds]
          have hskip : skippedLogsOf user_textures (⟨clip, .Mesh mesh⟩ :: rest)
              = skippedLogsOf user_textures rest := by
            simp [skippedLogsOf, List.filterMap_cons, hE2, htex]
          rw [hdrawn] at hv hi
          simp only [totalVertexBytes, totalIndexBytes, List.map_cons, List.sum_cons] at hv hi
          have hvfit : vptr + mesh.vertices.length * vertex_byte_size
              + totalVertexBytes (drawnOf texture_desc_sets user_textures rest)
              < vertex_buffer_size := by
            simpa [totalVertexBytes, Nat.add_assoc] using hv
          have hifit : iptr + mesh.indices.length * index_byte_size
              + totalIndexBytes (drawnOf texture_desc_sets user_textures rest)
              < index_buffer_size := by
            simpa [totalIndexBytes, Nat.add_assoc] using hi
          have hnov : ¬ (vertex_buffer_size ≤ vptr + mesh.vertices.length * vertex_byte_size
              ∨ index_buffer_size ≤ iptr + mesh.indices.length * index_byte_size) := by
            push_neg
            constructor
            · omega
            · omega
          rw [hdrawn, hskip]
          simp only [renderMeshes, htex, hE, hds, if_neg hnov]
          rw [ih (vptr + mesh.vertices.length * vertex_byte_size)
            (iptr + mesh.indices.length * index_byte_size)
            (vertex_base + mesh.vertices.length) (index_base + mesh.indices.length)
            hnf.2 (by omega) (by omega)]
          simp [expectedCmds, totalVertexBytes, totalIndexBytes]
          constructor
          · omega
          · omega

theorem renderMeshes_cursor_lt (texture_desc_sets : TexMap Nat)
    (user_textures : List (Option Nat)) (scale : ℚ)
    (physical_width physical_height : Nat) :
    ∀ (ps : List ClippedPrimitive) (vptr iptr vertex_base index_base : Nat),
      vptr < vertex_buffer_size → iptr < index_buffer_size →
      (renderMeshes texture_desc_sets user_textures scale physical_width physical_height
          ps vptr iptr vertex_base index_base).vptr < vertex_buffer_size ∧
      (renderMeshes texture_desc_sets user_textures scale physical_width physical_height
          ps vptr iptr vertex_base index_base).iptr < index_buffer_size := by
  intro ps
  induction ps with
  | nil =>
    intro vptr iptr vertex_base index_base hv hi
    exact ⟨hv, hi⟩
  | cons cp rest ih =>
    intro vptr iptr vertex_base index_base hv hi
    obtain ⟨clip, prim⟩ := cp
    cases prim with
    | Callback => exact ⟨hv, hi⟩
    | Mesh mesh =>
      by_cases hE : (mesh.vertices.isEmpty || mesh.indices.isEmpty) = true
      · simpa [renderMeshes, hE] using ih vptr iptr vertex_base index_base hv hi
      · cases htex : mesh.texture_id with
        | User id =>
          cases hq : user_textures[id]? with
          | none => simp [renderMeshes, htex, hE, hq]; exact ⟨hv, hi⟩
          | some o =>
            cases o with
            | none =>
              simpa [renderMeshes, htex, hE, hq] using
                ih vptr iptr vertex_base index_base hv hi
            | some descriptor_set =>
              by_cases hov : (vertex_buffer_size
                    ≤ vptr + mesh.vertices.length * vertex_byte_size
                  ∨ index_buffer_size ≤ iptr + mesh.indices.length * index_byte_size)
              · simp [renderMeshes, htex, hE, hq, hov]
                exact ⟨hv, hi⟩
              · push_neg at hov
                simpa [renderMeshes, htex, hE, hq, if_neg, hov.1.not_le, hov.2.not_le] using
                  ih (vptr + mesh.vertices.length * vertex_byte_size)
                    (iptr + mesh.indices.length * index_byte_size)
                    (vertex_base + mesh.vertices.length)
                    (index_base + mesh.indices.length) hov.1 hov.2
        | Managed mid =>
          cases hq : mapGet texture_desc_sets mesh.texture_id with
          | none =>
            rw [htex] at hq
            simp [renderMeshes, htex, hE, hq]
            exact ⟨hv, hi⟩
          | some descriptor_set =>
            rw [htex] at hq
            by_cases hov : (vertex_buffer_size
                  ≤ vptr + mesh.vertices.length * vertex_byte_size
                ∨ index_buffer_size ≤ iptr + mesh.indices.length * index_byte_size)
            · simp [renderMeshes, htex, hE, hq, hov]
              exact ⟨hv, hi⟩
            · push_neg at hov
              simpa [renderMeshes, htex, hE, hq, if_neg, hov.1.not_le, hov.2.not_le] using
                ih (vptr + mesh.vertices.length * vertex_byte_size)
                  (iptr + mesh.indices.length * index_byte_size)
                  (vertex_base + mesh.vertices.length)
                  (index_base + mesh.indices.length) hov.1 hov.2

theorem renderMeshes_overflow (texture_desc_sets : TexMap Nat)
    (user_textures : List (Option Nat)) (scale : ℚ)
    (physical_width physical_height : Nat) :
    ∀ (ps : List ClippedPrimitive) (vptr iptr vertex_base index_base : Nat),
      noFatalFrame texture_desc_sets user_textures ps = true →
      vptr < vertex_buffer_size → iptr < index_buffer_size →
      (vertex_buffer_size
          ≤ vptr + totalVertexBytes (drawnOf texture_desc_sets user_textures ps)
        ∨ index_buffer_size
          ≤ iptr + totalIndexBytes (drawnOf texture_desc_sets user_textures ps)) →
      (renderMeshes texture_desc_sets user_textures scale physical_width physical_height
          ps vptr iptr vertex_base index_base).outcome = .panicOutOfMemory := by
  intro ps
  induction ps with
  | nil =>
    intro vptr iptr vertex_base index_base hnf hv hi hov
    simp [drawnOf, totalVertexBytes, totalIndexBytes] at hov
    omega
  | cons cp rest ih =>
    intro vptr iptr vertex_base index_base hnf hv hi hov
    obtain ⟨clip, prim⟩ := cp
    simp only [noFatalFrame, List.all_cons, Bool.and_eq_true] at hnf
    cases prim with
    | Callback => simp at hnf
    | Mesh mesh =>
      by_cases hE : (mesh.vertices.isEmpty || mesh.indices.isEmpty) = true
      · have hE2 : mesh.vertices = [] ∨ mesh.indices = [] := by simpa using hE
        have hdrawn : drawnOf texture_desc_sets user_textures
            (⟨clip, .Mesh mesh⟩ :: rest) = drawnOf texture_desc_sets user_textures rest := by
          simp [drawnOf, List.filterMap_cons, hE2]
        rw [hdrawn] at hov
        simpa [renderMeshes, hE] using
          ih vptr iptr vertex_base index_base hnf.2 hv hi hov
      · have hE2 : ¬ (mesh.vertices = [] ∨ mesh.indices = []) := by simpa using hE
        cases htex : mesh.texture_id with
        | User id =>
          have hlt : id < user_textures.length := by
            simp only [htex, hE] at hnf
            simpa using hnf.1
          have hsome : user_textures[id]? = some user_textures[id] :=
            List.getElem?_eq_getElem hlt
          cases hslot : user_textures[id] with
          | none =>
            have hdrawn : drawnOf texture_desc_sets user_textures
                (⟨clip, .Mesh mesh⟩ :: rest)
                = drawnOf texture_desc_sets user_textures rest := by
              simp [drawnOf, List.filterMap_cons, hE2, descOf, htex, hsome, hslot]
            rw [hdrawn] at hov
            simpa [renderMeshes, htex, hE, hsome, hslot] using
              ih vptr iptr vertex_base index_base hnf.2 hv hi hov
          | some descriptor_set =>
            have hdrawn : drawnOf texture_desc_sets user_textures
                (⟨clip, .Mesh mesh⟩ :: rest)
                = ⟨clip, mesh, descriptor_set⟩
                  :: drawnOf texture_desc_sets user_textures rest := by
              simp [drawnOf, List.filterMap_cons, hE2, descOf, htex, hsome, hslot]
            rw [hdrawn] at hov
            simp only [totalVertexBytes, totalIndexBytes, List.map_cons, List.sum_cons] at hov
            by_cases hstop : (vertex_buffer_size
                  ≤ vptr + mesh.vertices.length * vertex_byte_size
                ∨ index_buffer_size ≤ iptr + mesh.indices.length * index_byte_size)
            · simp [renderMeshes, htex, hE, hsome, hslot, hstop]
            · push_neg at hstop
              have hov' : vertex_buffer_size
                    ≤ vptr + mesh.vertices.length * vertex_byte_size
                      + totalVertexBytes (drawnOf texture_desc_sets user_textures rest)
                  ∨ index_buffer_size
                    ≤ iptr + mesh.indices.length * index_byte_size
                      + totalIndexBytes (drawnOf texture_desc_sets user_textures rest) := by
                rcases hov with h | h
                · left
                  simpa [totalVertexBytes, Nat.add_assoc] using h
                · right
                  simpa [totalIndexBytes, Nat.add_assoc] using h
              simpa [renderMeshes, htex, hE, hsome, hslot, hstop.1.not_le, hstop.2.not_le] using
                ih (vptr + mesh.vertices.length * vertex_byte_size)
                  (iptr + mesh.indices.length * index_byte_size)
                  (vertex_base + mesh.vertices.length)
                  (index_base + mesh.indices.length) hnf.2 hstop.1 hstop.2 hov'
        | Managed mid =>
          have hres : (mapGet texture_desc_sets mesh.texture_id).isSome = true := by
            simp only [htex, hE] at hnf
            simpa [htex] using hnf.1
          obtain ⟨descriptor_set, hds⟩ := Option.isSome_iff_exists.mp hres
          rw [htex] at hds
          have hdrawn : drawnOf texture_desc_sets user_textures
              (⟨clip, .Mesh mesh⟩ :: rest)
              = ⟨clip, mesh, descriptor_set⟩
                :: drawnOf texture_desc_sets user_textures rest := by
            simp [drawnOf, List.filterMap_cons, hE2, descOf, htex, hds]
          rw [hdrawn] at hov
          simp only [totalVertexBytes, totalIndexBytes, List.map_cons, List.sum_cons] at hov
          by_cases hstop : (vertex_buffer_size
                ≤ vptr + mesh.vertices.length * vertex_byte_size
              ∨ index_buffer_size ≤ iptr + mesh.indices.length * index_byte_size)
          · simp [renderMeshes, htex, hE, hds, hstop]
          · push_neg at hstop
            have hov' : vertex_buffer_size
                  ≤ vptr + mesh.vertices.length * vertex_byte_size
                    + totalVertexBytes (drawnOf texture_desc_sets user_textures rest)
                ∨ index_buffer_size
                  ≤ iptr + mesh.indices.length * index_byte_size
                    + totalIndexBytes (drawnOf texture_desc_sets user_textures rest) := by
              rcases hov with h | h
              · left
                simpa [totalVertexBytes, Nat.add_assoc] using h
              · right
                simpa [totalIndexBytes, Nat.add_assoc] using h
            simpa [renderMeshes, htex, hE, hds, hstop.1.not_le, hstop.2.not_le] using
              ih (vptr + mesh.vertices.length * vertex_byte_size)
                (iptr + mesh.indices.length * index_byte_size)
                (vertex_base + mesh.vertices.length)
                (index_base + mesh.indices.length) hnf.2 hstop.1 hstop.2 hov'

theorem ratFloor_eq_floor (x : ℚ) : ratFloor x = ⌊x⌋ := Rat.floor_def.symm

theorem roundRust_nonneg {x : ℚ} (h : 0 ≤ x) : 0 ≤ roundRust x := by
  rw [roundRust, if_pos h, ratFloor_eq_floor]
  rw [Int.le_floor]
  linarith

theorem roundRust_le_int {x : ℚ} {m : ℤ} (h0 : 0 ≤ x) (h : x ≤ (m : ℚ)) :
    roundRust x ≤ m := by
  rw [roundRust, if_pos h0, ratFloor_eq_floor]
  rw [Int.floor_le_iff]
  linarith

theorem roundRust_le_ceil {x : ℚ} (h : 0 ≤ x) : roundRust x ≤ ⌈x⌉ := by
  rw [roundRust, if_pos h, ratFloor_eq_floor]
  rw [Int.floor_le_iff]
  have := Int.le_ceil x
  linarith

theorem round_add_extent_le {mx Mx : ℚ} {m : ℤ} (h0 : 0 ≤ mx) (h1 : mx ≤ Mx)
    (h2 : Mx ≤ (m : ℚ)) :
    roundRust mx + (qToU32 ((roundRust Mx : ℚ) - mx) : ℤ) ≤ m := by
  have hM0 : 0 ≤ Mx := le_trans h0 h1
  have hRle : roundRust Mx ≤ m := roundRust_le_int hM0 h2
  have hfloor : ⌊(roundRust Mx : ℚ) - mx⌋ = roundRust Mx - ⌈mx⌉ := by
    rw [show (roundRust Mx : ℚ) - mx = -(mx - (roundRust Mx : ℚ)) by ring, Int.floor_neg,
      Int.ceil_sub_int]
    ring
  have hrc : roundRust mx ≤ ⌈mx⌉ := roundRust_le_ceil h0
  by_cases hneg : ⌊(roundRust Mx : ℚ) - mx⌋ ≤ 0
  · have : (qToU32 ((roundRust Mx : ℚ) - mx) : ℤ) = 0 := by
      simp [qToU32, ratFloor_eq_floor, Int.toNat_of_nonpos hneg]
    rw [this]
    have := roundRust_le_int h0 (le_trans h1 h2)
    omega
  · push_neg at hneg
    have hpos : (qToU32 ((roundRust Mx : ℚ) - mx) : ℤ)
        = roundRust Mx - ⌈mx⌉ := by
      rw [qToU32, ratFloor_eq_floor, Int.toNat_of_nonneg (le_of_lt hneg), hfloor]
    rw [hpos]
    omega

theorem scissorOf_bounds (scale : ℚ) (physical_width physical_height : Nat)
    (clip : Rect) :
    0 ≤ (scissorOf scale physical_width physical_height clip).ox ∧
    (scissorOf scale physical_width physical_height clip).ox
      + ((scissorOf scale physical_width physical_height clip).ew : ℤ)
      ≤ (physical_width : ℤ) ∧
    0 ≤ (scissorOf scale physical_width physical_height clip).oy ∧
    (scissorOf scale physical_width physical_height clip).oy
      + ((scissorOf scale physical_width physical_height clip).eh : ℤ)
      ≤ (physical_height : ℤ) := by
  simp only [scissorOf]
  set mx := clampQ (clip.min_x * scale) 0 physical_width with hmx
  set my := clampQ (clip.min_y * scale) 0 physical_height with hmy
  set Mx := clampQ (clip.max_x * scale) mx physical_width with hMx
  set My := clampQ (clip.max_y * scale) my physical_height with hMy
  have h0x : 0 ≤ mx := le_max_left _ _
  have h0y : 0 ≤ my := le_max_left _ _
  have hxW : mx ≤ (physical_width : ℚ) := by
    rw [hmx, clampQ]
    exact max_le (by positivity) (min_le_right _ _)
  have hyH : my ≤ (physical_height : ℚ) := by
    rw [hmy, clampQ]
    exact max_le (by positivity) (min_le_right _ _)
  have hmMx : mx ≤ Mx := le_max_left _ _
  have hmMy : my ≤ My := le_max_left _ _
  have hMxW : Mx ≤ (physical_width : ℚ) := by
    rw [hMx, clampQ]
    exact max_le hxW (min_le_right _ _)
  have hMyH : My ≤ (physical_height : ℚ) := by
    rw [hMy, clampQ]
    exact max_le hyH (min_le_right _ _)
  refine ⟨roundRust_nonneg h0x, ?_, roundRust_nonneg h0y, ?_⟩
  · exact round_add_extent_le h0x hmMx (by exact_mod_cast hMxW)
  · exact round_add_extent_le h0y hmMy (by exact_mod_cast hMyH)

theorem renderMeshes_scissor_mem (texture_desc_sets : TexMap Nat)
    (user_textures : List (Option Nat)) (scale : ℚ)
    (physical_width physical_height : Nat) :
    ∀ (ps : List ClippedPrimitive) (vptr iptr vertex_base index_base : Nat)
      (sc : Scissor),
      Cmd.setScissor sc ∈ (renderMeshes texture_desc_sets user_textures scale
        physical_width physical_height ps vptr iptr vertex_base index_base).cmds →
      ∃ cp ∈ ps, sc = scissorOf scale physical_width physical_height cp.clip_rect := by
  intro ps
  induction ps with
  | nil =>
    intro vptr iptr vertex_base index_base sc hmem
    simp [renderMeshes] at hmem
  | cons cp rest ih =>
    intro vptr iptr vertex_base index_base sc hmem
    obtain ⟨clip, prim⟩ := cp
    cases prim with
    | Callback => simp [renderMeshes] at hmem
    | Mesh mesh =>
      by_cases hE : (mesh.vertices.isEmpty || mesh.indices.isEmpty) = true
      · rw [show renderMeshes texture_desc_sets user_textures scale physical_width
            physical_height (⟨clip, .Mesh mesh⟩ :: rest) vptr iptr vertex_base index_base
            = renderMeshes texture_desc_sets user_textures scale physical_width
              physical_height rest vptr iptr vertex_base index_base by
          simp [renderMeshes, hE]] at hmem
        obtain ⟨cp', hcp, hsc⟩ := ih vptr iptr vertex_base index_base sc hmem
        exact ⟨cp', List.mem_cons_of_mem _ hcp, hsc⟩
      · cases htex : mesh.texture_id with
        | User id =>
          cases hq : user_textures[id]? with
          | none =>
            simp [renderMeshes, htex, hE, hq] at hmem
          | some o =>
            cases o with
            | none =>
              have hc : (renderMeshes texture_desc_sets user_textures scale physical_width
                    physical_height (⟨clip, .Mesh mesh⟩ :: rest) vptr iptr vertex_base
                    index_base).cmds
                  = (renderMeshes texture_desc_sets user_textures scale physical_width
                    physical_height rest vptr iptr vertex_base index_base).cmds := by
                simp [renderMeshes, htex, hE, hq]
              rw [hc] at hmem
              obtain ⟨cp', hcp, hsc⟩ := ih vptr iptr vertex_base index_base sc hmem
              exact ⟨cp', List.mem_cons_of_mem _ hcp, hsc⟩
            | some descriptor_set =>
              by_cases hov : (vertex_buffer_size
                    ≤ vptr + mesh.vertices.length * vertex_byte_size
                  ∨ index_buffer_size ≤ iptr + mesh.indices.length * index_byte_size)
              · simp [renderMeshes, htex, hE, hq, hov] at hmem
              · simp only [renderMeshes, htex, hq] at hmem
                rw [if_neg (by simp [hE]), if_neg hov] at hmem
                simp only [List.mem_cons] at hmem
                rcases hmem with h | h | h | h
                · exact absurd h (by simp)
                · refine ⟨⟨clip, .Mesh mesh⟩, List.mem_cons_self _ _, ?_⟩
                  simpa using h
                · exact absurd h (by simp)
                · obtain ⟨cp', hcp, hsc⟩ := ih _ _ _ _ sc h
                  exact ⟨cp', List.mem_cons_of_mem _ hcp, hsc⟩
        | Managed mid =>
          cases hq : mapGet texture_desc_sets mesh.texture_id with
          | none =>
            rw [htex] at hq
            simp [renderMeshes, htex, hE, hq] at hmem
          | some descriptor_set =>
            rw [htex] at hq
            by_cases hov : (vertex_buffer_size
                  ≤ vptr + mesh.vertices.length * vertex_byte_size
                ∨ index_buffer_size ≤ iptr + mesh.indices.length * index_byte_size)
            · simp [renderMeshes, htex, hE, hq, hov] at hmem
            · simp only [renderMeshes, htex, hq] at hmem
              rw [if_neg (by simp [hE]), if_neg hov] at hmem
              simp only [List.mem_cons] at hmem
              rcases hmem with h | h | h | h
              · exact absurd h (by simp)
              · refine ⟨⟨clip, .Mesh mesh⟩, List.mem_cons_self _ _, ?_⟩
                simpa using h
              · exact absurd h (by simp)
              · obtain ⟨cp', hcp, hsc⟩ := ih _ _ _ _ sc h
                exact ⟨cp', List.mem_cons_of_mem _ hcp, hsc⟩

theorem allResolved_noFatal (texture_desc_sets : TexMap Nat)
    (user_textures : List (Option Nat)) (ps : List ClippedPrimitive)
    (h : allResolvedFrame texture_desc_sets user_textures ps = true) :
    noFatalFrame texture_desc_sets user_textures ps = true := by
  rw [allResolvedFrame, List.all_eq_true] at h
  rw [noFatalFrame, List.all_eq_true]
  intro cp hcp
  have hc := h cp hcp
  obtain ⟨clip, prim⟩ := cp
  cases prim with
  | Callback => simp at hc
  | Mesh mesh =>
    simp only at hc ⊢
    by_cases hE : (mesh.vertices.isEmpty || mesh.indices.isEmpty) = true
    · simp [hE]
    · simp only [hE] at hc ⊢
      simp only [Bool.false_or] at hc ⊢
      cases htex : mesh.texture_id with
      | User id =>
        simp only [descOf, htex] at hc
        cases hq : user_textures[id]? with
        | none => rw [hq] at hc; simp at hc
        | some o =>
          have hlen : id < user_textures.length := by
            by_contra hlen
            rw [List.getElem?_eq_none (by omega)] at hq
            exact Option.noConfusion hq
          simpa using hlen
      | Managed mid =>
        simp only [descOf, htex] at hc
        simpa using hc

theorem drawnOf_meshes_of_allResolved (texture_desc_sets : TexMap Nat)
    (user_textures : List (Option Nat)) :
    ∀ (ps : List ClippedPrimitive),
      allResolvedFrame texture_desc_sets user_textures ps = true →
      (drawnOf texture_desc_sets user_textures ps).map (fun dp => dp.mesh)
        = nonEmptyMeshes ps := by
  intro ps
  induction ps with
  | nil => intro h; rfl
  | cons cp rest ih =>
    intro h
    rw [allResolvedFrame, List.all_cons, Bool.and_eq_true] at h
    obtain ⟨clip, prim⟩ := cp
    cases prim with
    | Callback => simpa using h.1
    | Mesh mesh =>
      by_cases hE : (mesh.vertices.isEmpty || mesh.indices.isEmpty) = true
      · have hE2 : mesh.vertices = [] ∨ mesh.indices = [] := by simpa using hE
        have := ih h.2
        simpa [drawnOf, nonEmptyMeshes, List.filterMap_cons, hE2] using this
      · have hE2 : ¬ (mesh.vertices = [] ∨ mesh.indices = []) := by simpa using hE
        have hres : (descOf texture_desc_sets user_textures mesh).isSome = true := by
          have := h.1
          simp only [hE] at this
          simpa using this
        obtain ⟨descriptor_set, hds⟩ := Option.isSome_iff_exists.mp hres
        have := ih h.2
        simpa [drawnOf, nonEmptyMeshes, List.filterMap_cons, hE2, hds] using this

theorem drawsOf_expectedCmds (scale : ℚ) (physical_width physical_height : Nat) :
    ∀ (l : List DrawnPrim) (vertex_base index_base : Nat),
      drawsOf (expectedCmds scale physical_width physical_height l vertex_base index_base)
        = expectedDraws l vertex_base index_base := by
  intro l
  induction l with
  | nil => intro vb ib; rfl
  | cons dp rest ih =>
    intro vb ib
    simp [expectedCmds, expectedDraws, drawsOf, List.filterMap_cons]
    exact ih _ _

theorem drawsOf_framePrefix (swapchain_image_index physical_width physical_height : Nat)
    (scale : ℚ) :
    drawsOf (framePrefix swapchain_image_index physical_width physical_height scale)
      = [] := rfl

theorem recordComplete_empty : recordComplete emptyTexMaps :=
  fun _ => ⟨rfl, rfl, rfl⟩

theorem recordComplete_update (texture_id : TextureId) (delta : ImageDelta)
    (s : TexMaps) (h : recordComplete s) :
    recordComplete (update_texture texture_id delta s) := by
  intro u
  cases hp : delta.pos with
  | some p =>
    cases hex : mapGet s.texture_images texture_id with
    | some img => simpa [update_texture, hp, hex] using h u
    | none => simpa [update_texture, hp, hex] using h u
  | none =>
    by_cases hu : u = texture_id
    · subst hu
      simp [update_texture, hp, mapGet_insert_self]
    · simp only [update_texture, hp]
      simpa [mapGet_insert_ne _ _ hu] using h u

theorem recordComplete_applyFree (texture_id : TextureId) (s : TexMaps)
    (h : recordComplete s) : recordComplete (applyFree texture_id s) := by
  intro u
  by_cases hu : u = texture_id
  · subst hu
    simp [applyFree, mapGet_erase_self]
  · simpa [applyFree, mapGet_erase_ne _ hu] using h u

theorem recordComplete_foldl_update (l : List (TextureId × ImageDelta)) :
    ∀ (s : TexMaps), recordComplete s →
      recordComplete (l.foldl (fun acc pr => update_texture pr.1 pr.2 acc) s) := by
  induction l with
  | nil => intro s h; exact h
  | cons pr rest ih =>
    intro s h
    exact ih _ (recordComplete_update pr.1 pr.2 s h)

theorem recordComplete_foldl_free (l : List TextureId) :
    ∀ (s : TexMaps), recordComplete s →
      recordComplete (l.foldl (fun acc texture_id => applyFree texture_id acc) s) := by
  induction l with
  | nil => intro s h; exact h
  | cons t rest ih =>
    intro s h
    exact ih _ (recordComplete_applyFree t s h)

theorem recordComplete_paint (s : TexMaps) (user_textures : List (Option Nat))
    (scale : ℚ) (physical_width physical_height swapchain_image_index : Nat)
    (clipped_meshes : List ClippedPrimitive) (textures_delta : TexturesDelta)
    (h : recordComplete s) :
    recordComplete (paint s user_textures scale physical_width physical_height
      swapchain_image_index clipped_meshes textures_delta).state := by
  have h1 : recordComplete (textureStateAfterSets s textures_delta) :=
    recordComplete_foldl_update textures_delta.set s h
  rw [paint]
  split
  · exact recordComplete_foldl_free textures_delta.free _ h1
  · exact h1

theorem paint_frame_eq (s : TexMaps) (user_textures : List (Option Nat)) (scale : ℚ)
    (physical_width physical_height swapchain_image_index : Nat)
    (clipped_meshes : List ClippedPrimitive) (textures_delta : TexturesDelta) :
    (paint s user_textures scale physical_width physical_height swapchain_image_index
        clipped_meshes textures_delta).frame.outcome
      = (renderMeshes (textureStateAfterSets s textures_delta).texture_desc_sets
          user_textures scale physical_width physical_height clipped_meshes 0 0 0 0).outcome ∧
    (paint s user_textures scale physical_width physical_height swapchain_image_index
        clipped_meshes textures_delta).frame.logs
      = (renderMeshes (textureStateAfterSets s textures_delta).texture_desc_sets
          user_textures scale physical_width physical_height clipped_meshes 0 0 0 0).logs ∧
    (paint s user_textures scale physical_width physical_height swapchain_image_index
        clipped_meshes textures_delta).frame.vptr
      = (renderMeshes (textureStateAfterSets s textures_delta).texture_desc_sets
          user_textures scale physical_width physical_height clipped_meshes 0 0 0 0).vptr ∧
    (paint s user_textures scale physical_width physical_height swapchain_image_index
        clipped_meshes textures_delta).frame.iptr
      = (renderMeshes (textureStateAfterSets s textures_delta).texture_desc_sets
          user_textures scale physical_width physical_height clipped_meshes 0 0 0 0).iptr := by
  rw [paint]
  split <;> exact ⟨rfl, rfl, rfl, rfl⟩

theorem paint_drawsOf (s : TexMaps) (user_textures : List (Option Nat)) (scale : ℚ)
    (physical_width physical_height swapchain_image_index : Nat)
    (clipped_meshes : List ClippedPrimitive) (textures_delta : TexturesDelta) :
    drawsOf (paint s user_textures scale physical_width physical_height
        swapchain_image_index clipped_meshes textures_delta).frame.cmds
      = drawsOf (renderMeshes (textureStateAfterSets s textures_delta).texture_desc_sets
          user_textures scale physical_width physical_height clipped_meshes 0 0 0 0).cmds := by
  rw [paint]
  split <;> simp [drawsOf, List.filterMap_append, framePrefix]

theorem paint_scissor_mem_loop (s : TexMaps) (user_textures : List (Option Nat))
    (scale : ℚ) (physical_width physical_height swapchain_image_index : Nat)
    (clipped_meshes : List ClippedPrimitive) (textures_delta : TexturesDelta)
    (sc : Scissor)
    (hmem : Cmd.setScissor sc ∈ (paint s user_textures scale physical_width
      physical_height swapchain_image_index clipped_meshes textures_delta).frame.cmds) :
    Cmd.setScissor sc ∈ (renderMeshes
      (textureStateAfterSets s textures_delta).texture_desc_sets user_textures scale
      physical_width physical_height clipped_meshes 0 0 0 0).cmds := by
  rw [paint] at hmem
  revert hmem
  split <;> intro hmem <;> simpa [framePrefix] using hmem

/-- C2: the claim requires the old framebuffers to be destroyed before the
image views they reference; evaluating `update_swapchain`'s event sequence on
a one-image swapchain shows the code does the opposite - it destroys the
per-image view (index 2 of the sequence) before the framebuffer (index 3) -
while the render pass, pipeline, views and framebuffers are indeed all
recreated together afterwards at the new size and format. -/
theorem c2_update_swapchain_event_order :
    update_swapchain_events 1 1 640 480 .B8G8R8A8_UNORM =
      [.destroyRenderPass, .destroyPipeline, .destroyImageView 0, .destroyFramebuffer 0,
       .createRenderPass .B8G8R8A8_UNORM, .createPipeline,
       .createImageView 0 .B8G8R8A8_UNORM, .createFramebuffer 0 640 480] := by
  decide

/-- C5 counterexample: the fixed-function state of the pipeline rebuilt in
`update_swapchain` is not identical to the one built at construction. -/
theorem c5_pipeline_states_differ :
    pipelineFixedFunctionNew ≠ pipelineFixedFunctionRebuild := by
  decide

/-- C5 (amended): the two pipeline builds agree on the vertex-input
binding/attribute layout, topology, viewport/scissor counts, rasterizer
state, blend state, dynamic state and sample count, but they differ in the
depth-stencil state: construction disables depth test and write with compare
op `ALWAYS`, while the rebuild enables both with compare op
`LESS_OR_EQUAL`. -/
theorem c5_pipeline_states_agree_except_depth_stencil :
    pipelineFixedFunctionNew.bindings = pipelineFixedFunctionRebuild.bindings ∧
    pipelineFixedFunctionNew.attributes = pipelineFixedFunctionRebuild.attributes ∧
    pipelineFixedFunctionNew.topology = pipelineFixedFunctionRebuild.topology ∧
    pipelineFixedFunctionNew.viewport_count = pipelineFixedFunctionRebuild.viewport_count ∧
    pipelineFixedFunctionNew.scissor_count = pipelineFixedFunctionRebuild.scissor_count ∧
    pipelineFixedFunctionNew.rasterization = pipelineFixedFunctionRebuild.rasterization ∧
    pipelineFixedFunctionNew.blend = pipelineFixedFunctionRebuild.blend ∧
    pipelineFixedFunctionNew.dynamic_states = pipelineFixedFunctionRebuild.dynamic_states ∧
    pipelineFixedFunctionNew.rasterization_samples
      = pipelineFixedFunctionRebuild.rasterization_samples ∧
    pipelineFixedFunctionNew.depth_stencil =
      { depth_test_enable := false, depth_write_enable := false,
        depth_compare_op := .ALWAYS, depth_bounds_test_enable := false,
        stencil_test_enable := false, front := stencil_op, back := stencil_op } ∧
    pipelineFixedFunctionRebuild.depth_stencil =
      { depth_test_enable := true, depth_write_enable := true,
        depth_compare_op := .LESS_OR_EQUAL, depth_bounds_test_enable := false,
        stencil_test_enable := false, front := stencil_op, back := stencil_op } := by
  decide

/-- C6 counterexample: unregistering an already-free `User` slot is a silent
no-op - no warning diagnostic is emitted, contradicting the claim that a
warning accompanies the no-op. -/
theorem c6_unregister_free_slot_is_silent :
    unregister_user_texture [none] (.User 0) = ([none], [], [], .ok) := by
  decide

/-- C6 (amended): unregistering a Managed handle is reported with a
diagnostic and is a no-op (not fatal); unregistering an already-free
in-bounds `User` slot is a silent no-op (no warning); unregistering an
occupied `User` slot frees its descriptor set and marks the slot free. -/
theorem c6_unregister_user_texture_amended (user_textures : List (Option Nat))
    (m i j n : Nat)
    (hfree : user_textures[i]? = some none)
    (hocc : user_textures[j]? = some (some n)) :
    unregister_user_texture user_textures (.Managed m)
      = (user_textures, [.cannotUnregisterManaged], [], .ok) ∧
    unregister_user_texture user_textures (.User i) = (user_textures, [], [], .ok) ∧
    unregister_user_texture user_textures (.User j)
      = (user_textures.set j none, [], [n], .ok) := by
  refine ⟨rfl, ?_, ?_⟩
  · simp [unregister_user_texture, hfree]
  · simp [unregister_user_texture, hocc]

theorem c6_unregister_user_texture_amended_witness :
    ([none, some 7] : List (Option Nat))[0]? = some none ∧
    ([none, some 7] : List (Option Nat))[1]? = some (some 7) ∧
    (unregister_user_texture [none, some 7] (.Managed 3)
        = ([none, some 7], [.cannotUnregisterManaged], [], .ok) ∧
      unregister_user_texture [none, some 7] (.User 0)
        = ([none, some 7], [], [], .ok) ∧
      unregister_user_texture [none, some 7] (.User 1)
        = (([none, some 7] : List (Option Nat)).set 1 none, [], [7], .ok)) :=
  ⟨by decide, by decide,
    c6_unregister_user_texture_amended [none, some 7] 3 0 1 7 (by decide) (by decide)⟩

/-- C4 counterexample: a "set" delta with a placement offset against a handle
with no record still mutates the texture cache - the image-create-info map
gains a binding for the handle (inserted unconditionally at source line 893),
so not every per-handle map is left exactly as it was. -/
theorem c4_positioned_set_changes_image_infos :
    (update_texture (.Managed 0) ⟨some (1, 2), ⟨3, 4⟩⟩ emptyTexMaps).texture_image_infos
      = [(.Managed 0, ⟨3, 4, .R8G8B8A8_SRGB⟩)] ∧
    emptyTexMaps.texture_image_infos = [] := by
  decide

/-- C4 (amended): a "set" delta carrying a placement offset for a handle with
no existing record leaves the images, descriptor sets, views and allocations
maps (and hence the texture count) exactly as they were, but it does insert
the delta's create-info into the image-create-info map. -/
theorem c4_positioned_set_without_record (s : TexMaps) (texture_id : TextureId)
    (delta : ImageDelta) (p : Nat × Nat)
    (hpos : delta.pos = some p)
    (hnone : mapGet s.texture_images texture_id = none) :
    (update_texture texture_id delta s).texture_images = s.texture_images ∧
    (update_texture texture_id delta s).texture_desc_sets = s.texture_desc_sets ∧
    (update_texture texture_id delta s).texture_image_views = s.texture_image_views ∧
    (update_texture texture_id delta s).texture_allocations = s.texture_allocations ∧
    (update_texture texture_id delta s).texture_images.length
      = s.texture_images.length ∧
    (update_texture texture_id delta s).texture_image_infos
      = mapInsert s.texture_image_infos texture_id
          ⟨delta.image.width, delta.image.height, .R8G8B8A8_SRGB⟩ := by
  simp [update_texture, hpos, hnone]

theorem c4_positioned_set_without_record_witness :
    (⟨some (1, 2), ⟨3, 4⟩⟩ : ImageDelta).pos = some (1, 2) ∧
    mapGet emptyTexMaps.texture_images (.Managed 0) = none ∧
    ((update_texture (.Managed 0) ⟨some (1, 2), ⟨3, 4⟩⟩ emptyTexMaps).texture_images
        = emptyTexMaps.texture_images ∧
      (update_texture (.Managed 0) ⟨some (1, 2), ⟨3, 4⟩⟩ emptyTexMaps).texture_desc_sets
        = emptyTexMaps.texture_desc_sets ∧
      (update_texture (.Managed 0) ⟨some (1, 2), ⟨3, 4⟩⟩ emptyTexMaps).texture_image_views
        = emptyTexMaps.texture_image_views ∧
      (update_texture (.Managed 0) ⟨some (1, 2), ⟨3, 4⟩⟩ emptyTexMaps).texture_allocations
        = emptyTexMaps.texture_allocations ∧
      (update_texture (.Managed 0) ⟨some (1, 2), ⟨3, 4⟩⟩ emptyTexMaps).texture_images.length
        = emptyTexMaps.texture_images.length ∧
      (update_texture (.Managed 0) ⟨some (1, 2), ⟨3, 4⟩⟩ emptyTexMaps).texture_image_infos
        = mapInsert emptyTexMaps.texture_image_infos (.Managed 0) ⟨3, 4, .R8G8B8A8_SRGB⟩) :=
  ⟨rfl, rfl,
    c4_positioned_set_without_record emptyTexMaps (.Managed 0) ⟨some (1, 2), ⟨3, 4⟩⟩
      (1, 2) rfl rfl⟩

/-- C7: after any sequence of "set" deltas on a handle followed by a "free"
delta for it, the texture cache holds no record for the handle in any of the
five per-handle maps; a "free" for a handle with no record is a silent no-op
(the state is unchanged); and a subsequent "set" on the freed handle behaves
as a fresh creation - a full set (no offset) registers a descriptor set,
image, view and allocation for the handle, while a positioned set takes the
no-record early-return path and leaves the images and descriptor sets
untouched. -/
theorem c7_free_clears_record_and_resets (s s₀ : TexMaps) (t : TextureId)
    (deltas : List ImageDelta) (d d' : ImageDelta) (p : Nat × Nat)
    (h₀ds : mapGet s₀.texture_desc_sets t = none)
    (h₀im : mapGet s₀.texture_images t = none)
    (h₀in : mapGet s₀.texture_image_infos t = none)
    (h₀vw : mapGet s₀.texture_image_views t = none)
    (h₀al : mapGet s₀.texture_allocations t = none)
    (hd : d.pos = none) (hd' : d'.pos = some p) :
    (mapGet (applyFree t (deltas.foldl (fun acc dd => update_texture t dd acc)
        s)).texture_desc_sets t = none ∧
      mapGet (applyFree t (deltas.foldl (fun acc dd => update_texture t dd acc)
        s)).texture_images t = none ∧
      mapGet (applyFree t (deltas.foldl (fun acc dd => update_texture t dd acc)
        s)).texture_image_infos t = none ∧
      mapGet (applyFree t (deltas.foldl (fun acc dd => update_texture t dd acc)
        s)).texture_image_views t = none ∧
      mapGet (applyFree t (deltas.foldl (fun acc dd => update_texture t dd acc)
        s)).texture_allocations t = none) ∧
    applyFree t s₀ = s₀ ∧
    ((mapGet (update_texture t d (applyFree t (deltas.foldl
        (fun acc dd => update_texture t dd acc) s))).texture_desc_sets t).isSome = true ∧
      (mapGet (update_texture t d (applyFree t (deltas.foldl
        (fun acc dd => update_texture t dd acc) s))).texture_images t).isSome = true ∧
      (mapGet (update_texture t d (applyFree t (deltas.foldl
        (fun acc dd => update_texture t dd acc) s))).texture_image_views t).isSome = true ∧
      (mapGet (update_texture t d (applyFree t (deltas.foldl
        (fun acc dd => update_texture t dd acc) s))).texture_allocations t).isSome = true) ∧
    ((update_texture t d' (applyFree t (deltas.foldl
        (fun acc dd => update_texture t dd acc) s))).texture_images
      = (applyFree t (deltas.foldl
        (fun acc dd => update_texture t dd acc) s)).texture_images ∧
      (update_texture t d' (applyFree t (deltas.foldl
        (fun acc dd => update_texture t dd acc) s))).texture_desc_sets
      = (applyFree t (deltas.foldl
        (fun acc dd => update_texture t dd acc) s)).texture_desc_sets) := by
  set sf := applyFree t (deltas.foldl (fun acc dd => update_texture t dd acc) s) with hsf
  have himg : mapGet sf.texture_images t = none := by
    rw [hsf]
    exact mapGet_erase_self _ t
  refine ⟨⟨?_, himg, ?_, ?_, ?_⟩, ?_, ?_, ?_⟩
  · rw [hsf]; exact mapGet_erase_self _ t
  · rw [hsf]; exact mapGet_erase_self _ t
  · rw [hsf]; exact mapGet_erase_self _ t
  · rw [hsf]; exact mapGet_erase_self _ t
  · rw [applyFree, mapErase_of_get_none _ _ h₀ds, mapErase_of_get_none _ _ h₀in,
      mapErase_of_get_none _ _ h₀im, mapErase_of_get_none _ _ h₀vw,
      mapErase_of_get_none _ _ h₀al]
  · simp [update_texture, hd, mapGet_insert_self]
  · simp [update_texture, hd', himg]

theorem c7_free_clears_record_and_resets_witness :
    mapGet emptyTexMaps.texture_desc_sets (.Managed 5) = none ∧
    mapGet emptyTexMaps.texture_images (.Managed 5) = none ∧
    mapGet emptyTexMaps.texture_image_infos (.Managed 5) = none ∧
    mapGet emptyTexMaps.texture_image_views (.Managed 5) = none ∧
    mapGet emptyTexMaps.texture_allocations (.Managed 5) = none ∧
    (⟨none, ⟨1, 1⟩⟩ : ImageDelta).pos = none ∧
    (⟨some (0, 0), ⟨1, 1⟩⟩ : ImageDelta).pos = some (0, 0) ∧
    ((mapGet (applyFree (.Managed 5) ([⟨none, ⟨2, 2⟩⟩].foldl
          (fun acc dd => update_texture (.Managed 5) dd acc)
          emptyTexMaps)).texture_desc_sets (.Managed 5) = none ∧
        mapGet (applyFree (.Managed 5) ([⟨none, ⟨2, 2⟩⟩].foldl
          (fun acc dd => update_texture (.Managed 5) dd acc)
          emptyTexMaps)).texture_images (.Managed 5) = none ∧
        mapGet (applyFree (.Managed 5) ([⟨none, ⟨2, 2⟩⟩].foldl
          (fun acc dd => update_texture (.Managed 5) dd acc)
          emptyTexMaps)).texture_image_infos (.Managed 5) = none ∧
        mapGet (applyFree (.Managed 5) ([⟨none, ⟨2, 2⟩⟩].foldl
          (fun acc dd => update_texture (.Managed 5) dd acc)
          emptyTexMaps)).texture_image_views (.Managed 5) = none ∧
        mapGet (applyFree (.Managed 5) ([⟨none, ⟨2, 2⟩⟩].foldl
          (fun acc dd => update_texture (.Managed 5) dd acc)
          emptyTexMaps)).texture_allocations (.Managed 5) = none) ∧
      applyFree (.Managed 5) emptyTexMaps = emptyTexMaps ∧
      ((mapGet (update_texture (.Managed 5) ⟨none, ⟨1, 1⟩⟩
          (applyFree (.Managed 5) ([⟨none, ⟨2, 2⟩⟩].foldl
            (fun acc dd => update_texture (.Managed 5) dd acc)
            emptyTexMaps))).texture_desc_sets (.Managed 5)).isSome = true ∧
        (mapGet (update_texture (.Managed 5) ⟨none, ⟨1, 1⟩⟩
          (applyFree (.Managed 5) ([⟨none, ⟨2, 2⟩⟩].foldl
            (fun acc dd => update_texture (.Managed 5) dd acc)
            emptyTexMaps))).texture_images (.Managed 5)).isSome = true ∧
        (mapGet (update_texture (.Managed 5) ⟨none, ⟨1, 1⟩⟩
          (applyFree (.Managed 5) ([⟨none, ⟨2, 2⟩⟩].foldl
            (fun acc dd => update_texture (.Managed 5) dd acc)
            emptyTexMaps))).texture_image_views (.Managed 5)).isSome = true ∧
        (mapGet (update_texture (.Managed 5) ⟨none, ⟨1, 1⟩⟩
          (applyFree (.Managed 5) ([⟨none, ⟨2, 2⟩⟩].foldl
            (fun acc dd => update_texture (.Managed 5) dd acc)
            emptyTexMaps))).texture_allocations (.Managed 5)).isSome = true) ∧
      ((update_texture (.Managed 5) ⟨some (0, 0), ⟨1, 1⟩⟩
          (applyFree (.Managed 5) ([⟨none, ⟨2, 2⟩⟩].foldl
            (fun acc dd => update_texture (.Managed 5) dd acc)
            emptyTexMaps))).texture_images
        = (applyFree (.Managed 5) ([⟨none, ⟨2, 2⟩⟩].foldl
            (fun acc dd => update_texture (.Managed 5) dd acc)
            emptyTexMaps)).texture_images ∧
        (update_texture (.Managed 5) ⟨some (0, 0), ⟨1, 1⟩⟩
          (applyFree (.Managed 5) ([⟨none, ⟨2, 2⟩⟩].foldl
            (fun acc dd => update_texture (.Managed 5) dd acc)
            emptyTexMaps))).texture_desc_sets
        = (applyFree (.Managed 5) ([⟨none, ⟨2, 2⟩⟩].foldl
            (fun acc dd => update_texture (.Managed 5) dd acc)
            emptyTexMaps)).texture_desc_sets)) :=
  ⟨rfl, rfl, rfl, rfl, rfl, rfl, rfl,
    c7_free_clears_record_and_resets emptyTexMaps emptyTexMaps (.Managed 5)
      [⟨none, ⟨2, 2⟩⟩] ⟨none, ⟨1, 1⟩⟩ ⟨some (0, 0), ⟨1, 1⟩⟩ (0, 0)
      rfl rfl rfl rfl rfl rfl rfl⟩

/-- C10 counterexample: after constructing, applying one full "set" delta and
then calling `destroy`, the handle is still a key of `texture_desc_sets` but
no longer a key of `texture_images` - the four per-handle maps do not hold
the same key set after every operation. -/
theorem c10_destroy_leaves_desc_sets :
    (mapGet (destroy (update_texture (.Managed 0) ⟨none, ⟨1, 1⟩⟩
        emptyTexMaps)).texture_desc_sets (.Managed 0)).isSome = true ∧
    (mapGet (destroy (update_texture (.Managed 0) ⟨none, ⟨1, 1⟩⟩
        emptyTexMaps)).texture_images (.Managed 0)).isSome = false := by
  decide

/-- C10 (amended): the key-set agreement of the four per-handle maps holds
after construction and is preserved by every `update_texture` and every
`paint`; `destroy`, however, empties `texture_images`, `texture_image_views`
and `texture_allocations` while leaving the keys of `texture_desc_sets` in
place (the descriptor sets themselves are freed with the pool). -/
theorem c10_texture_maps_key_invariant (s : TexMaps) (t : TextureId)
    (delta : ImageDelta) (user_textures : List (Option Nat)) (scale : ℚ)
    (physical_width physical_height swapchain_image_index : Nat)
    (clipped_meshes : List ClippedPrimitive) (textures_delta : TexturesDelta)
    (h : recordComplete s) :
    recordComplete emptyTexMaps ∧
    recordComplete (update_texture t delta s) ∧
    recordComplete (paint s user_textures scale physical_width physical_height
      swapchain_image_index clipped_meshes textures_delta).state ∧
    (destroy s).texture_images = [] ∧
    (destroy s).texture_image_views = [] ∧
    (destroy s).texture_allocations = [] ∧
    (destroy s).texture_desc_sets = s.texture_desc_sets :=
  ⟨recordComplete_empty, recordComplete_update t delta s h,
    recordComplete_paint s user_textures scale physical_width physical_height
      swapchain_image_index clipped_meshes textures_delta h,
    rfl, rfl, rfl, rfl⟩

theorem c10_texture_maps_key_invariant_witness :
    recordComplete emptyTexMaps ∧
    (recordComplete emptyTexMaps ∧
      recordComplete (update_texture (.Managed 0) ⟨none, ⟨1, 1⟩⟩ emptyTexMaps) ∧
      recordComplete (paint emptyTexMaps [] 1 100 100 0 [] ⟨[], []⟩).state ∧
      (destroy emptyTexMaps).texture_images = [] ∧
      (destroy emptyTexMaps).texture_image_views = [] ∧
      (destroy emptyTexMaps).texture_allocations = [] ∧
      (destroy emptyTexMaps).texture_desc_sets = emptyTexMaps.texture_desc_sets) :=
  ⟨fun _ => ⟨rfl, rfl, rfl⟩,
    c10_texture_maps_key_invariant emptyTexMaps (.Managed 0) ⟨none, ⟨1, 1⟩⟩ [] 1
      100 100 0 [] ⟨[], []⟩ (fun _ => ⟨rfl, rfl, rfl⟩)⟩

/-- C1 counterexample: a frame containing one non-empty primitive whose
Managed handle has no cached record does not skip the primitive with a
diagnostic - `paint` panics on the descriptor-set `unwrap` (the frame
aborts) and no diagnostic is emitted. -/
theorem c1_managed_missing_panics :
    (paint emptyTexMaps [] 1 100 100 0
        [⟨⟨0, 0, 10, 10⟩, .Mesh ⟨.Managed 0, [⟨(0, 0), (0, 0), (0, 0, 0, 0)⟩], [0]⟩⟩]
        ⟨[], []⟩).frame.outcome = .panicUnwrapTexture ∧
    (paint emptyTexMaps [] 1 100 100 0
        [⟨⟨0, 0, 10, 10⟩, .Mesh ⟨.Managed 0, [⟨(0, 0), (0, 0), (0, 0, 0, 0)⟩], [0]⟩⟩]
        ⟨[], []⟩).frame.logs = [] := by
  decide

/-- C1 (amended): only a `User` handle whose in-bounds registry slot is
unregistered is a recoverable skip: in a frame whose primitives cannot
otherwise panic (no callbacks, managed handles cached, user ids in bounds)
and whose geometry fits the buffers, `paint` completes, emits exactly one
diagnostic per skipped unregistered-`User` primitive, and draws exactly the
primitives that resolve; a Managed handle with no cached record is instead a
fatal `unwrap` panic (see the counterexample). -/
theorem c1_unregistered_user_skipped (s : TexMaps)
    (user_textures : List (Option Nat)) (scale : ℚ)
    (physical_width physical_height swapchain_image_index : Nat)
    (clipped_meshes : List ClippedPrimitive) (textures_delta : TexturesDelta)
    (hnf : noFatalFrame (textureStateAfterSets s textures_delta).texture_desc_sets
      user_textures clipped_meshes = true)
    (hv : totalVertexBytes (drawnOf (textureStateAfterSets s
        textures_delta).texture_desc_sets user_textures clipped_meshes)
      < vertex_buffer_size)
    (hiv : totalIndexBytes (drawnOf (textureStateAfterSets s
        textures_delta).texture_desc_sets user_textures clipped_meshes)
      < index_buffer_size) :
    (paint s user_textures scale physical_width physical_height
        swapchain_image_index clipped_meshes textures_delta).frame.outcome = .ok ∧
    (paint s user_textures scale physical_width physical_height
        swapchain_image_index clipped_meshes textures_delta).frame.logs
      = skippedLogsOf user_textures clipped_meshes ∧
    drawsOf (paint s user_textures scale physical_width physical_height
        swapchain_image_index clipped_meshes textures_delta).frame.cmds
      = expectedDraws (drawnOf (textureStateAfterSets s
          textures_delta).texture_desc_sets user_textures clipped_meshes) 0 0 := by
  have hf := renderMeshes_spec (textureStateAfterSets s textures_delta).texture_desc_sets
    user_textures scale physical_width physical_height clipped_meshes 0 0 0 0 hnf
    (by simpa using hv) (by simpa using hiv)
  obtain ⟨ho, hl, _, _⟩ := paint_frame_eq s user_textures scale physical_width
    physical_height swapchain_image_index clipped_meshes textures_delta
  refine ⟨?_, ?_, ?_⟩
  · rw [ho, hf]
  · rw [hl, hf]
  · rw [paint_drawsOf, hf]
    exact drawsOf_expectedCmds scale physical_width physical_height _ 0 0

/-- C3: in a frame whose primitives all resolve (so every non-empty
primitive is drawn), if the cumulative vertex bytes reach the fixed 4 MiB
vertex capacity or the cumulative index bytes reach the fixed 2 MiB index
capacity - the comparison being non-strict, so exactly reaching the
capacity is included - then `paint` panics with the out-of-memory condition,
and the write cursors never pass the end of either mapped region. -/
theorem c3_overflow_is_fatal (s : TexMaps) (user_textures : List (Option Nat))
    (scale : ℚ) (physical_width physical_height swapchain_image_index : Nat)
    (clipped_meshes : List ClippedPrimitive) (textures_delta : TexturesDelta)
    (hres : allResolvedFrame (textureStateAfterSets s textures_delta).texture_desc_sets
      user_textures clipped_meshes = true)
    (hov : vertex_buffer_size ≤ totalVertexBytes (drawnOf (textureStateAfterSets s
          textures_delta).texture_desc_sets user_textures clipped_meshes)
      ∨ index_buffer_size ≤ totalIndexBytes (drawnOf (textureStateAfterSets s
          textures_delta).texture_desc_sets user_textures clipped_meshes)) :
    (paint s user_textures scale physical_width physical_height
        swapchain_image_index clipped_meshes textures_delta).frame.outcome
      = .panicOutOfMemory ∧
    (paint s user_textures scale physical_width physical_height
        swapchain_image_index clipped_meshes textures_delta).frame.vptr
      < vertex_buffer_size ∧
    (paint s user_textures scale physical_width physical_height
        swapchain_image_index clipped_meshes textures_delta).frame.iptr
      < index_buffer_size := by
  have hnf := allResolved_noFatal _ _ _ hres
  obtain ⟨ho, _, hvp, hip⟩ := paint_frame_eq s user_textures scale physical_width
    physical_height swapchain_image_index clipped_meshes textures_delta
  have hout := renderMeshes_overflow (textureStateAfterSets s
      textures_delta).texture_desc_sets user_textures scale physical_width
    physical_height clipped_meshes 0 0 0 0 hnf (by decide) (by decide)
    (by simpa using hov)
  have hcur := renderMeshes_cursor_lt (textureStateAfterSets s
      textures_delta).texture_desc_sets user_textures scale physical_width
    physical_height clipped_meshes 0 0 0 0 (by decide) (by decide)
  exact ⟨by rw [ho]; exact hout, by rw [hvp]; exact hcur.1, by rw [hip]; exact hcur.2⟩

/-- C8: in a frame whose primitives all resolve and whose geometry fits the
buffers, the draws recorded by `paint` are exactly one indexed draw per
non-empty primitive, in input order, the draw's index count is the
primitive's index count, and its first-index/vertex-offset are the
cumulative index/vertex counts of the previously drawn primitives; empty
primitives are skipped and the frame completes. -/
theorem c8_draw_order_preserved (s : TexMaps) (user_textures : List (Option Nat))
    (scale : ℚ) (physical_width physical_height swapchain_image_index : Nat)
    (clipped_meshes : List ClippedPrimitive) (textures_delta : TexturesDelta)
    (hres : allResolvedFrame (textureStateAfterSets s textures_delta).texture_desc_sets
      user_textures clipped_meshes = true)
    (hv : totalVertexBytes (drawnOf (textureStateAfterSets s
        textures_delta).texture_desc_sets user_textures clipped_meshes)
      < vertex_buffer_size)
    (hiv : totalIndexBytes (drawnOf (textureStateAfterSets s
        textures_delta).texture_desc_sets user_textures clipped_meshes)
      < index_buffer_size) :
    drawsOf (paint s user_textures scale physical_width physical_height
        swapchain_image_index clipped_meshes textures_delta).frame.cmds
      = expectedDraws (drawnOf (textureStateAfterSets s
          textures_delta).texture_desc_sets user_textures clipped_meshes) 0 0 ∧
    (drawnOf (textureStateAfterSets s textures_delta).texture_desc_sets
        user_textures clipped_meshes).map (fun dp => dp.mesh)
      = nonEmptyMeshes clipped_meshes ∧
    (paint s user_textures scale physical_width physical_height
        swapchain_image_index clipped_meshes textures_delta).frame.outcome = .ok := by
  have hnf := allResolved_noFatal _ _ _ hres
  have hf := renderMeshes_spec (textureStateAfterSets s textures_delta).texture_desc_sets
    user_textures scale physical_width physical_height clipped_meshes 0 0 0 0 hnf
    (by simpa using hv) (by simpa using hiv)
  obtain ⟨ho, _, _, _⟩ := paint_frame_eq s user_textures scale physical_width
    physical_height swapchain_image_index clipped_meshes textures_delta
  refine ⟨?_, drawnOf_meshes_of_allResolved _ _ _ hres, ?_⟩
  · rw [paint_drawsOf, hf]
    exact drawsOf_expectedCmds scale physical_width physical_height _ 0 0
  · rw [ho, hf]

/-- C9: every scissor rectangle recorded by `paint` is the one computed from
some input primitive's clip rectangle - scaled by the scale factor and
clamped componentwise to the surface with the max corner clamped above the
min corner - and consequently it lies within the surface bounds: a
nonnegative offset and offset plus extent at most the surface size in each
component. -/
theorem c9_scissors_clamped (s : TexMaps) (user_textures : List (Option Nat))
    (scale : ℚ) (physical_width physical_height swapchain_image_index : Nat)
    (clipped_meshes : List ClippedPrimitive) (textures_delta : TexturesDelta)
    (sc : Scissor)
    (hmem : Cmd.setScissor sc ∈ (paint s user_textures scale physical_width
      physical_height swapchain_image_index clipped_meshes textures_delta).frame.cmds) :
    (∃ cp ∈ clipped_meshes,
      sc = scissorOf scale physical_width physical_height cp.clip_rect) ∧
    0 ≤ sc.ox ∧ sc.ox + (sc.ew : ℤ) ≤ (physical_width : ℤ) ∧
    0 ≤ sc.oy ∧ sc.oy + (sc.eh : ℤ) ≤ (physical_height : ℤ) := by
  have hmem' := paint_scissor_mem_loop s user_textures scale physical_width
    physical_height swapchain_image_index clipped_meshes textures_delta sc hmem
  obtain ⟨cp, hcp, hsc⟩ := renderMeshes_scissor_mem (textureStateAfterSets s
      textures_delta).texture_desc_sets user_textures scale physical_width
    physical_height clipped_meshes 0 0 0 0 sc hmem'
  obtain ⟨b1, b2, b3, b4⟩ := scissorOf_bounds scale physical_width physical_height
    cp.clip_rect
  subst hsc
  exact ⟨⟨cp, hcp, rfl⟩, b1, b2, b3, b4⟩

theorem c1_unregistered_user_skipped_witness :
    noFatalFrame (textureStateAfterSets emptyTexMaps ⟨[], []⟩).texture_desc_sets [none]
        [⟨⟨0, 0, 10, 10⟩, .Mesh ⟨.User 0, [⟨(0, 0), (0, 0), (0, 0, 0, 0)⟩], [0]⟩⟩]
      = true ∧
    totalVertexBytes (drawnOf (textureStateAfterSets emptyTexMaps
        ⟨[], []⟩).texture_desc_sets [none]
        [⟨⟨0, 0, 10, 10⟩, .Mesh ⟨.User 0, [⟨(0, 0), (0, 0), (0, 0, 0, 0)⟩], [0]⟩⟩])
      < vertex_buffer_size ∧
    totalIndexBytes (drawnOf (textureStateAfterSets emptyTexMaps
        ⟨[], []⟩).texture_desc_sets [none]
        [⟨⟨0, 0, 10, 10⟩, .Mesh ⟨.User 0, [⟨(0, 0), (0, 0), (0, 0, 0, 0)⟩], [0]⟩⟩])
      < index_buffer_size ∧
    ((paint emptyTexMaps [none] 1 100 100 0
        [⟨⟨0, 0, 10, 10⟩, .Mesh ⟨.User 0, [⟨(0, 0), (0, 0), (0, 0, 0, 0)⟩], [0]⟩⟩]
        ⟨[], []⟩).frame.outcome = .ok ∧
      (paint emptyTexMaps [none] 1 100 100 0
        [⟨⟨0, 0, 10, 10⟩, .Mesh ⟨.User 0, [⟨(0, 0), (0, 0), (0, 0, 0, 0)⟩], [0]⟩⟩]
        ⟨[], []⟩).frame.logs
        = skippedLogsOf [none]
          [⟨⟨0, 0, 10, 10⟩, .Mesh ⟨.User 0, [⟨(0, 0), (0, 0), (0, 0, 0, 0)⟩], [0]⟩⟩] ∧
      drawsOf (paint emptyTexMaps [none] 1 100 100 0
        [⟨⟨0, 0, 10, 10⟩, .Mesh ⟨.User 0, [⟨(0, 0), (0, 0), (0, 0, 0, 0)⟩], [0]⟩⟩]
        ⟨[], []⟩).frame.cmds
        = expectedDraws (drawnOf (textureStateAfterSets emptyTexMaps
            ⟨[], []⟩).texture_desc_sets [none]
            [⟨⟨0, 0, 10, 10⟩, .Mesh ⟨.User 0, [⟨(0, 0), (0, 0), (0, 0, 0, 0)⟩], [0]⟩⟩])
            0 0) :=
  ⟨by decide, by decide, by decide,
    c1_unregistered_user_skipped emptyTexMaps [none] 1 100 100 0
      [⟨⟨0, 0, 10, 10⟩, .Mesh ⟨.User 0, [⟨(0, 0), (0, 0), (0, 0, 0, 0)⟩], [0]⟩⟩]
      ⟨[], []⟩ (by decide) (by decide) (by decide)⟩

theorem c8_draw_order_preserved_witness :
    allResolvedFrame (textureStateAfterSets (update_texture (.Managed 0)
        ⟨none, ⟨1, 1⟩⟩ emptyTexMaps) ⟨[], []⟩).texture_desc_sets []
        [⟨⟨0, 0, 10, 10⟩, .Mesh ⟨.Managed 0,
          [⟨(0, 0), (0, 0), (0, 0, 0, 0)⟩, ⟨(1, 1), (0, 0), (0, 0, 0, 0)⟩], [0, 1, 0]⟩⟩,
         ⟨⟨0, 0, 20, 20⟩, .Mesh ⟨.Managed 0,
          [⟨(2, 2), (0, 0), (0, 0, 0, 0)⟩], [0, 0, 0]⟩⟩] = true ∧
    totalVertexBytes (drawnOf (textureStateAfterSets (update_texture (.Managed 0)
        ⟨none, ⟨1, 1⟩⟩ emptyTexMaps) ⟨[], []⟩).texture_desc_sets []
        [⟨⟨0, 0, 10, 10⟩, .Mesh ⟨.Managed 0,
          [⟨(0, 0), (0, 0), (0, 0, 0, 0)⟩, ⟨(1, 1), (0, 0), (0, 0, 0, 0)⟩], [0, 1, 0]⟩⟩,
         ⟨⟨0, 0, 20, 20⟩, .Mesh ⟨.Managed 0,
          [⟨(2, 2), (0, 0), (0, 0, 0, 0)⟩], [0, 0, 0]⟩⟩]) < vertex_buffer_size ∧
    totalIndexBytes (drawnOf (textureStateAfterSets (update_texture (.Managed 0)
        ⟨none, ⟨1, 1⟩⟩ emptyTexMaps) ⟨[], []⟩).texture_desc_sets []
        [⟨⟨0, 0, 10, 10⟩, .Mesh ⟨.Managed 0,
          [⟨(0, 0), (0, 0), (0, 0, 0, 0)⟩, ⟨(1, 1), (0, 0), (0, 0, 0, 0)⟩], [0, 1, 0]⟩⟩,
         ⟨⟨0, 0, 20, 20⟩, .Mesh ⟨.Managed 0,
          [⟨(2, 2), (0, 0), (0, 0, 0, 0)⟩], [0, 0, 0]⟩⟩]) < index_buffer_size ∧
    (drawsOf (paint (update_texture (.Managed 0) ⟨none, ⟨1, 1⟩⟩ emptyTexMaps) [] 1
        100 100 0
        [⟨⟨0, 0, 10, 10⟩, .Mesh ⟨.Managed 0,
          [⟨(0, 0), (0, 0), (0, 0, 0, 0)⟩, ⟨(1, 1), (0, 0), (0, 0, 0, 0)⟩], [0, 1, 0]⟩⟩,
         ⟨⟨0, 0, 20, 20⟩, .Mesh ⟨.Managed 0,
          [⟨(2, 2), (0, 0), (0, 0, 0, 0)⟩], [0, 0, 0]⟩⟩] ⟨[], []⟩).frame.cmds
      = expectedDraws (drawnOf (textureStateAfterSets (update_texture (.Managed 0)
          ⟨none, ⟨1, 1⟩⟩ emptyTexMaps) ⟨[], []⟩).texture_desc_sets []
          [⟨⟨0, 0, 10, 10⟩, .Mesh ⟨.Managed 0,
            [⟨(0, 0), (0, 0), (0, 0, 0, 0)⟩, ⟨(1, 1), (0, 0), (0, 0, 0, 0)⟩], [0, 1, 0]⟩⟩,
           ⟨⟨0, 0, 20, 20⟩, .Mesh ⟨.Managed 0,
            [⟨(2, 2), (0, 0), (0, 0, 0, 0)⟩], [0, 0, 0]⟩⟩]) 0 0 ∧
      (drawnOf (textureStateAfterSets (update_texture (.Managed 0)
          ⟨none, ⟨1, 1⟩⟩ emptyTexMaps) ⟨[], []⟩).texture_desc_sets []
          [⟨⟨0, 0, 10, 10⟩, .Mesh ⟨.Managed 0,
            [⟨(0, 0), (0, 0), (0, 0, 0, 0)⟩, ⟨(1, 1), (0, 0), (0, 0, 0, 0)⟩], [0, 1, 0]⟩⟩,
           ⟨⟨0, 0, 20, 20⟩, .Mesh ⟨.Managed 0,
            [⟨(2, 2), (0, 0), (0, 0, 0, 0)⟩], [0, 0, 0]⟩⟩]).map (fun dp => dp.mesh)
        = nonEmptyMeshes
          [⟨⟨0, 0, 10, 10⟩, .Mesh ⟨.Managed 0,
            [⟨(0, 0), (0, 0), (0, 0, 0, 0)⟩, ⟨(1, 1), (0, 0), (0, 0, 0, 0)⟩], [0, 1, 0]⟩⟩,
           ⟨⟨0, 0, 20, 20⟩, .Mesh ⟨.Managed 0,
            [⟨(2, 2), (0, 0), (0, 0, 0, 0)⟩], [0, 0, 0]⟩⟩] ∧
      (paint (update_texture (.Managed 0) ⟨none, ⟨1, 1⟩⟩ emptyTexMaps) [] 1 100 100 0
        [⟨⟨0, 0, 10, 10⟩, .Mesh ⟨.Managed 0,
          [⟨(0, 0), (0, 0), (0, 0, 0, 0)⟩, ⟨(1, 1), (0, 0), (0, 0, 0, 0)⟩], [0, 1, 0]⟩⟩,
         ⟨⟨0, 0, 20, 20⟩, .Mesh ⟨.Managed 0,
          [⟨(2, 2), (0, 0), (0, 0, 0, 0)⟩], [0, 0, 0]⟩⟩] ⟨[], []⟩).frame.outcome = .ok) :=
  ⟨by decide, by decide, by decide,
    c8_draw_order_preserved (update_texture (.Managed 0) ⟨none, ⟨1, 1⟩⟩ emptyTexMaps)
      [] 1 100 100 0
      [⟨⟨0, 0, 10, 10⟩, .Mesh ⟨.Managed 0,
        [⟨(0, 0), (0, 0), (0, 0, 0, 0)⟩, ⟨(1, 1), (0, 0), (0, 0, 0, 0)⟩], [0, 1, 0]⟩⟩,
       ⟨⟨0, 0, 20, 20⟩, .Mesh ⟨.Managed 0,
        [⟨(2, 2), (0, 0), (0, 0, 0, 0)⟩], [0, 0, 0]⟩⟩] ⟨[], []⟩
      (by decide) (by decide) (by decide)⟩

theorem paint_cmds_ok (s : TexMaps) (user_textures : List (Option Nat)) (scale : ℚ)
    (physical_width physical_height swapchain_image_index : Nat)
    (clipped_meshes : List ClippedPrimitive) (textures_delta : TexturesDelta)
    (hok : (renderMeshes (textureStateAfterSets s textures_delta).texture_desc_sets
      user_textures scale physical_width physical_height clipped_meshes 0 0 0 0).outcome
      = .ok) :
    (paint s user_textures scale physical_width physical_height swapchain_image_index
        clipped_meshes textures_delta).frame.cmds
      = framePrefix swapchain_image_index physical_width physical_height scale
        ++ (renderMeshes (textureStateAfterSets s textures_delta).texture_desc_sets
          user_textures scale physical_width physical_height clipped_meshes 0 0 0 0).cmds
        ++ [.endRenderPass] := by
  rw [paint]
  split
  · rfl
  · next hne => exact absurd hok hne

theorem c9_scissors_clamped_witness :
    Cmd.setScissor (scissorOf 1 100 100 ⟨0, 0, 50, 50⟩) ∈ (paint (update_texture
        (.Managed 0) ⟨none, ⟨1, 1⟩⟩ emptyTexMaps) [] 1 100 100 0
        [⟨⟨0, 0, 50, 50⟩, .Mesh ⟨.Managed 0, [⟨(0, 0), (0, 0), (0, 0, 0, 0)⟩], [0]⟩⟩]
        ⟨[], []⟩).frame.cmds ∧
    ((∃ cp ∈ [⟨⟨0, 0, 50, 50⟩,
          .Mesh ⟨.Managed 0, [⟨(0, 0), (0, 0), (0, 0, 0, 0)⟩], [0]⟩⟩],
        scissorOf 1 100 100 ⟨0, 0, 50, 50⟩ = scissorOf 1 100 100
          (ClippedPrimitive.clip_rect cp)) ∧
      0 ≤ (scissorOf 1 100 100 ⟨0, 0, 50, 50⟩).ox ∧
      (scissorOf 1 100 100 ⟨0, 0, 50, 50⟩).ox
        + ((scissorOf 1 100 100 ⟨0, 0, 50, 50⟩).ew : ℤ) ≤ (100 : ℤ) ∧
      0 ≤ (scissorOf 1 100 100 ⟨0, 0, 50, 50⟩).oy ∧
      (scissorOf 1 100 100 ⟨0, 0, 50, 50⟩).oy
        + ((scissorOf 1 100 100 ⟨0, 0, 50, 50⟩).eh : ℤ) ≤ (100 : ℤ)) := by
  have hf := renderMeshes_spec (textureStateAfterSets (update_texture (.Managed 0)
      ⟨none, ⟨1, 1⟩⟩ emptyTexMaps) ⟨[], []⟩).texture_desc_sets [] 1 100 100
    [⟨⟨0, 0, 50, 50⟩, .Mesh ⟨.Managed 0, [⟨(0, 0), (0, 0), (0, 0, 0, 0)⟩], [0]⟩⟩]
    0 0 0 0 (by decide) (by decide) (by decide)
  have hmem : Cmd.setScissor (scissorOf 1 100 100 ⟨0, 0, 50, 50⟩) ∈ (paint
      (update_texture (.Managed 0) ⟨none, ⟨1, 1⟩⟩ emptyTexMaps) [] 1 100 100 0
      [⟨⟨0, 0, 50, 50⟩, .Mesh ⟨.Managed 0, [⟨(0, 0), (0, 0), (0, 0, 0, 0)⟩], [0]⟩⟩]
      ⟨[], []⟩).frame.cmds := by
    rw [paint_cmds_ok _ _ _ _ _ _ _ _ (by rw [hf]), hf]
    have hdrawn : drawnOf (textureStateAfterSets (update_texture (.Managed 0)
        ⟨none, ⟨1, 1⟩⟩ emptyTexMaps) ⟨[], []⟩).texture_desc_sets []
        [⟨⟨0, 0, 50, 50⟩, .Mesh ⟨.Managed 0, [⟨(0, 0), (0, 0), (0, 0, 0, 0)⟩], [0]⟩⟩]
        = [⟨⟨0, 0, 50, 50⟩, ⟨.Managed 0, [⟨(0, 0), (0, 0), (0, 0, 0, 0)⟩], [0]⟩, 3⟩] := rfl
    rw [hdrawn]
    simp [expectedCmds, framePrefix]
  exact ⟨hmem,
    c9_scissors_clamped (update_texture (.Managed 0) ⟨none, ⟨1, 1⟩⟩ emptyTexMaps)
      [] 1 100 100 0
      [⟨⟨0, 0, 50, 50⟩, .Mesh ⟨.Managed 0, [⟨(0, 0), (0, 0), (0, 0, 0, 0)⟩], [0]⟩⟩]
      ⟨[], []⟩ (scissorOf 1 100 100 ⟨0, 0, 50, 50⟩) hmem⟩

theorem totalVertexBytes_cons (dp : DrawnPrim) (l : List DrawnPrim) :
    totalVertexBytes (dp :: l)
      = dp.mesh.vertices.length * vertex_byte_size + totalVertexBytes l := by
  simp [totalVertexBytes]

theorem totalVertexBytes_nil : totalVertexBytes [] = 0 := rfl

theorem c3_overflow_is_fatal_witness :
    allResolvedFrame (textureStateAfterSets (update_texture (.Managed 0)
        ⟨none, ⟨1, 1⟩⟩ emptyTexMaps) ⟨[], []⟩).texture_desc_sets []
        [⟨⟨0, 0, 1, 1⟩, .Mesh ⟨.Managed 0,
          List.replicate 209716 ⟨(0, 0), (0, 0), (0, 0, 0, 0)⟩, [0]⟩⟩] = true ∧
    (vertex_buffer_size ≤ totalVertexBytes (drawnOf (textureStateAfterSets
        (update_texture (.Managed 0) ⟨none, ⟨1, 1⟩⟩ emptyTexMaps)
        ⟨[], []⟩).texture_desc_sets []
        [⟨⟨0, 0, 1, 1⟩, .Mesh ⟨.Managed 0,
          List.replicate 209716 ⟨(0, 0), (0, 0), (0, 0, 0, 0)⟩, [0]⟩⟩])
      ∨ index_buffer_size ≤ totalIndexBytes (drawnOf (textureStateAfterSets
        (update_texture (.Managed 0) ⟨none, ⟨1, 1⟩⟩ emptyTexMaps)
        ⟨[], []⟩).texture_desc_sets []
        [⟨⟨0, 0, 1, 1⟩, .Mesh ⟨.Managed 0,
          List.replicate 209716 ⟨(0, 0), (0, 0), (0, 0, 0, 0)⟩, [0]⟩⟩])) ∧
    ((paint (update_texture (.Managed 0) ⟨none, ⟨1, 1⟩⟩ emptyTexMaps) [] 1 100 100 0
        [⟨⟨0, 0, 1, 1⟩, .Mesh ⟨.Managed 0,
          List.replicate 209716 ⟨(0, 0), (0, 0), (0, 0, 0, 0)⟩, [0]⟩⟩]
        ⟨[], []⟩).frame.outcome = .panicOutOfMemory ∧
      (paint (update_texture (.Managed 0) ⟨none, ⟨1, 1⟩⟩ emptyTexMaps) [] 1 100 100 0
        [⟨⟨0, 0, 1, 1⟩, .Mesh ⟨.Managed 0,
          List.replicate 209716 ⟨(0, 0), (0, 0), (0, 0, 0, 0)⟩, [0]⟩⟩]
        ⟨[], []⟩).frame.vptr < vertex_buffer_size ∧
      (paint (update_texture (.Managed 0) ⟨none, ⟨1, 1⟩⟩ emptyTexMaps) [] 1 100 100 0
        [⟨⟨0, 0, 1, 1⟩, .Mesh ⟨.Managed 0,
          List.replicate 209716 ⟨(0, 0), (0, 0), (0, 0, 0, 0)⟩, [0]⟩⟩]
        ⟨[], []⟩).frame.iptr < index_buffer_size) := by
  have hres : allResolvedFrame (textureStateAfterSets (update_texture (.Managed 0)
      ⟨none, ⟨1, 1⟩⟩ emptyTexMaps) ⟨[], []⟩).texture_desc_sets []
      [⟨⟨0, 0, 1, 1⟩, .Mesh ⟨.Managed 0,
        List.replicate 209716 ⟨(0, 0), (0, 0), (0, 0, 0, 0)⟩, [0]⟩⟩] = true := by
    decide
  have hdrawn : drawnOf (textureStateAfterSets (update_texture (.Managed 0)
      ⟨none, ⟨1, 1⟩⟩ emptyTexMaps) ⟨[], []⟩).texture_desc_sets []
      [⟨⟨0, 0, 1, 1⟩, .Mesh ⟨.Managed 0,
        List.replicate 209716 ⟨(0, 0), (0, 0), (0, 0, 0, 0)⟩, [0]⟩⟩]
      = [⟨⟨0, 0, 1, 1⟩, ⟨.Managed 0,
          List.replicate 209716 ⟨(0, 0), (0, 0), (0, 0, 0, 0)⟩, [0]⟩, 3⟩] := rfl
  have hov : vertex_buffer_size ≤ totalVertexBytes (drawnOf (textureStateAfterSets
      (update_texture (.Managed 0) ⟨none, ⟨1, 1⟩⟩ emptyTexMaps)
      ⟨[], []⟩).texture_desc_sets []
      [⟨⟨0, 0, 1, 1⟩, .Mesh ⟨.Managed 0,
        List.replicate 209716 ⟨(0, 0), (0, 0), (0, 0, 0, 0)⟩, [0]⟩⟩])
      ∨ index_buffer_size ≤ totalIndexBytes (drawnOf (textureStateAfterSets
      (update_texture (.Managed 0) ⟨none, ⟨1, 1⟩⟩ emptyTexMaps)
      ⟨[], []⟩).texture_desc_sets []
      [⟨⟨0, 0, 1, 1⟩, .Mesh ⟨.Managed 0,
        List.replicate 209716 ⟨(0, 0), (0, 0), (0, 0, 0, 0)⟩, [0]⟩⟩]) := by
    left
    rw [hdrawn]
    rw [totalVertexBytes_cons, totalVertexBytes_nil]
    rw [show (⟨⟨0, 0, 1, 1⟩, ⟨.Managed 0,
        List.replicate 209716 ⟨(0, 0), (0, 0), (0, 0, 0, 0)⟩, [0]⟩, 3⟩
        : DrawnPrim).mesh.vertices
        = List.replicate 209716 (⟨(0, 0), (0, 0), (0, 0, 0, 0)⟩ : Vertex) from rfl]
    rw [List.length_replicate]
    norm_num [vertex_buffer_size, vertex_byte_size]
  exact ⟨hres, hov,
    c3_overflow_is_fatal (update_texture (.Managed 0) ⟨none, ⟨1, 1⟩⟩ emptyTexMaps)
      [] 1 100 100 0
      [⟨⟨0, 0, 1, 1⟩, .Mesh ⟨.Managed 0,
        List.replicate 209716 ⟨(0, 0), (0, 0), (0, 0, 0, 0)⟩, [0]⟩⟩]
      ⟨[], []⟩ hres hov⟩
